import Mathlib

/-
Verification of the tpc compiler (src/src/main.rs) against its
natural-language specification.  All definitions in this file are shallow
embeddings of the Rust source; source line numbers are cited next to each
definition.  Strings are modelled as lists of characters (the sources under
test are ASCII, where Rust byte positions and char positions coincide).
Rust panics, `todo!()`s and `Err` returns are all modelled as
`Except.error`; `HashMap` is modelled as an association list whose `insert`
replaces an existing key (matching `HashMap::insert` semantics; iteration
order is never observed by the code, only `len` and point lookups).
Unbounded `loop`s / `while`s are modelled with an explicit fuel parameter;
fuel exhaustion is `Except.error "fuel"` (resp. a fuel-indexed state for the
lexer) and is distinct from any behaviour of the program.
-/

deriving instance DecidableEq for Except

namespace TPC

/-- Word: the lexer's token type (main.rs lines 3-85).  Only the variants the
lexer can actually produce (its keyword table and punctuation table, lines
165-299) are included; the remaining variants of the Rust enum are dead. -/
inductive Word where
  | name (s : String)
  | semicolon
  | openingTab (n : Nat)
  | openParenthesis
  | closeParenthesis
  | signed
  | unsigned
  | period
  | comma
  | colon
  | number (s : String)
  | stringLiteral (s : String)
  | equals
  | lessThan
  | greaterThan
  | plus
  | minus
  | star
  | forwardSlash
  | a
  | ale
  | ante
  | asen
  | awen
  | e
  | en
  | kama
  | kepeken
  | la
  | li
  | lili
  | linja
  | luka
  | nanpa
  | ni
  | o
  | pali
  | pana
  | pi
  | pini
  | sama
  | sin
  | sitelen
  | suli
  | tawa
  | telo
  | tenpo
  | tu
  | wan
  | weka
  deriving DecidableEq, Repr

/-- Keyword table of the lexer (main.rs lines 165-202): a maximal
alphanumeric run is looked up here; anything unknown becomes a name Word. -/
def keywordOf (s : String) : Word :=
  match s with
  | "ale" => .ale
  | "sin" => .sin
  | "a" => .a
  | "o" => .o
  | "e" => .e
  | "en" => .en
  | "kama" => .kama
  | "li" => .li
  | "nanpa" => .nanpa
  | "sitelen" => .sitelen
  | "suli" => .suli
  | "lili" => .lili
  | "telo" => .telo
  | "signed" => .signed
  | "unsigned" => .unsigned
  | "la" => .la
  | "ante" => .ante
  | "tenpo" => .tenpo
  | "pini" => .pini
  | "awen" => .awen
  | "linja" => .linja
  | "asen" => .asen
  | "sama" => .sama
  | "pali" => .pali
  | "kepeken" => .kepeken
  | "ni" => .ni
  | "weka" => .weka
  | "tu" => .tu
  | "wan" => .wan
  | "luka" => .luka
  | "pana" => .pana
  | "pi" => .pi
  | _ => .name s

/-- Punctuation table of the lexer (main.rs lines 279-299); an unknown
character is a fatal error (the `panic!` at line 294). -/
def punctuationOf (c : Char) : Except String Word :=
  match c with
  | ';' => .ok .semicolon
  | '(' => .ok .openParenthesis
  | ')' => .ok .closeParenthesis
  | ',' => .ok .comma
  | ':' => .ok .colon
  | '=' => .ok .equals
  | '<' => .ok .lessThan
  | '>' => .ok .greaterThan
  | '+' => .ok .plus
  | '-' => .ok .minus
  | '*' => .ok .star
  | '.' => .ok .period
  | '/' => .ok .forwardSlash
  | _ => .error "Unexpected character"

/-- Mutable state of `Lexer::lex` (main.rs lines 120-143): cursor position,
line-start flag, line counter and the words emitted so far. -/
structure LexSt where
  pos : Nat
  lineStart : Bool
  line : Nat
  words : List Word
  deriving DecidableEq, Repr

def isWordChar (c : Char) : Bool := c.isAlphanum || c = '_'

/-- One iteration of the `while` loop of `Lexer::lex` (main.rs lines
142-306), taken only when `pos < buf.length`.  Each branch mirrors the
corresponding Rust branch, in the same priority order. -/
def lexStep (buf : List Char) (st : LexSt) : Except String LexSt :=
  match buf.get? st.pos with
  | none => .ok st
  | some c =>
    if c.isAlpha || c = '_' then
      -- lines 148-208: maximal run of alphanumerics-or-underscore
      let run := (buf.drop st.pos).takeWhile isWordChar
      .ok { pos := st.pos + run.length, lineStart := false, line := st.line,
            words := st.words ++ [keywordOf (String.mk run)] }
    else if c.isDigit then
      -- lines 209-231: maximal alphanumeric run as a number literal
      let run := (buf.drop st.pos).takeWhile Char.isAlphanum
      .ok { pos := st.pos + run.length, lineStart := false, line := st.line,
            words := st.words ++ [Word.number (String.mk run)] }
    else if c = '"' then
      -- lines 232-247: the loop breaks as soon as it peeks a quote, and the
      -- cursor still points at the opening quote, which is never consumed
      let run := (buf.drop st.pos).takeWhile (fun ch => ch ≠ '"')
      .ok { pos := st.pos + run.length, lineStart := false, line := st.line,
            words := st.words ++ [Word.stringLiteral (String.mk run)] }
    else if c = '\n' then
      -- lines 248-251
      .ok { pos := st.pos + 1, lineStart := true, line := st.line + 1,
            words := st.words }
    else if c = '\t' && st.lineStart then
      -- lines 252-273: maximal run of tabs at line start (the flag is not
      -- cleared in this branch)
      let run := (buf.drop st.pos).takeWhile (fun ch => ch = '\t')
      .ok { pos := st.pos + run.length, lineStart := st.lineStart,
            line := st.line, words := st.words ++ [Word.openingTab run.length] }
    else if c.isWhitespace then
      -- lines 274-276
      .ok { pos := st.pos + 1, lineStart := false, line := st.line,
            words := st.words }
    else
      -- lines 277-305
      match punctuationOf c with
      | .error msg => .error msg
      | .ok w =>
        .ok { pos := st.pos + 1, lineStart := false, line := st.line,
              words := st.words ++ [w] }

/-- The `while self.current_position < self.buffer.len()` loop of
`Lexer::lex` (main.rs line 142), run for `fuel` iterations.  When the fuel
runs out the current state is returned (used below to observe that the loop
makes no progress on some inputs). -/
def lexRun (buf : List Char) : Nat → LexSt → Except String LexSt
  | 0, st => .ok st
  | fuel + 1, st =>
    if st.pos < buf.length then
      match lexStep buf st with
      | .error msg => .error msg
      | .ok st' => lexRun buf fuel st'
    else .ok st

/-- Initial lexer state (main.rs lines 136-140). -/
def lexInit : LexSt := { pos := 0, lineStart := true, line := 0, words := [] }

/-- Token: the phrase assembler's output type (main.rs lines 311-375). -/
inductive Token where
  | oTawa
  | oSin
  | liKamaSama
  | tenpo
  | asen
  | liKepeken
  | oPali
  | liPaliENi
  | oWeka
  | liPanaE
  | oPini
  | o
  | e
  | pali
  | en
  | kepeken
  | a
  | period
  | comma
  | openingTab (n : Nat)
  | name (s : String)
  | number (s : String)
  | stringLiteral (s : String)
  | colon
  | tenpoPi
  | tenpoAlePi
  | la
  | ante
  | li
  | nanpa
  | sitelen
  | suli
  | lili
  | telo
  | telotu
  | linja
  | awen
  | openParenthesis
  | closeParenthesis
  | equals
  | doubleEquals
  | unequals
  | lessThan
  | greaterThan
  | plus
  | minus
  | star
  | forwardSlash
  | backSlash
  deriving DecidableEq, Repr

/-- `Abstracter::expect` (main.rs lines 411-422) compares the peeked Word's
discriminant with an expected one; each use site is modelled by the
discriminant predicate it tests. -/
def expectW (ws : List Word) (cur : Nat) (p : Word → Bool) : Bool :=
  match ws[cur]? with
  | none => false
  | some w => p w

def Word.isNameW : Word → Bool
  | .name _ => true
  | _ => false

def Word.isNumberW : Word → Bool
  | .number _ => true
  | _ => false

/-- `Abstracter::tokenize_o` (main.rs lines 424-468).  The cursor sits on an
`o` Word; the state is (cursor, tokens emitted so far). -/
def tokenizeO (ws : List Word) (cur : Nat) (toks : List Token) :
    Except String (Nat × List Token) :=
  if !expectW ws cur (· = Word.o) then
    .error "unreachable"
  else
    let cur := cur + 1
    if expectW ws cur (· = Word.tawa) then
      .ok (cur + 1, toks ++ [Token.oTawa])
    else if expectW ws cur Word.isNameW then
      -- `o <name>`: the name Word is not consumed here
      .ok (cur, toks ++ [Token.o])
    else if expectW ws cur (· = Word.weka) then
      .ok (cur + 1, toks ++ [Token.oWeka])
    else if expectW ws cur (· = Word.sin) then
      let cur := cur + 1
      if expectW ws cur (· = Word.e) then
        .ok (cur + 1, toks ++ [Token.oSin])
      else
        .error "No 'e' in 'o sin' statement"
    else if expectW ws cur (· = Word.pini) then
      .ok (cur + 1, toks ++ [Token.oPini])
    else
      .error "not a valid o statement"

/-- Weight of a unit-numeral Word in `Abstracter::tokenize_nanpas`
(main.rs lines 476-481): wan 1, tu 2, luka 5. -/
def numeralWeight : Word → Option Nat
  | .wan => some 1
  | .tu => some 2
  | .luka => some 5
  | _ => none

/-- `Abstracter::is_number` (main.rs lines 404-409). -/
def Word.isUnitNumeral (w : Word) : Bool := (numeralWeight w).isSome

/-- The accumulation loop of `Abstracter::tokenize_nanpas` (main.rs lines
471-484): returns the summed value and the number of Words consumed. -/
def nanpasLoop : List Word → Nat → Nat × Nat
  | [], acc => (acc, 0)
  | w :: rest, acc =>
    match numeralWeight w with
    | none => (acc, 0)
    | some k =>
      let r := nanpasLoop rest (acc + k)
      (r.1, r.2 + 1)

/-- `Abstracter::tokenize_nanpas` (main.rs lines 470-486): fold a run of
unit numerals into a single decimal number Token.  The non-negative i32
accumulator is modelled as Nat (its overflow is unreachable for realistic
inputs and not covered by the spec). -/
def tokenizeNanpas (ws : List Word) (cur : Nat) (toks : List Token) :
    Nat × List Token :=
  let r := nanpasLoop (ws.drop cur) 0
  (cur + r.2, toks ++ [Token.number (Nat.repr r.1)])

/-- `Abstracter::tokenize_li` (main.rs lines 547-601).  Note: when the Word
after `li` is none of kama/kepeken/pali/pana the function returns without
pushing anything and without an error; note also that the `li pali e ni`
branch does not return, so the `li pana e` check still runs after it. -/
def tokenizeLi (ws : List Word) (cur : Nat) (toks : List Token) :
    Except String (Nat × List Token) :=
  if !expectW ws cur (· = Word.li) then
    .ok (cur, toks)
  else
    let cur := cur + 1
    if expectW ws cur (· = Word.kama) then
      let cur := cur + 1
      if expectW ws cur (· = Word.sama) then
        .ok (cur + 1, toks ++ [Token.liKamaSama])
      else
        .error "no 'sama' in 'kama sama' statement"
    else if expectW ws cur (· = Word.kepeken) then
      .ok (cur + 1, toks ++ [Token.liKepeken])
    else
      match
        (if expectW ws cur (· = Word.pali) then
          let cur := cur + 1
          if expectW ws cur (· = Word.e) then
            let cur := cur + 1
            if expectW ws cur (· = Word.ni) then
              .ok (cur + 1, toks ++ [Token.liPaliENi])
            else
              .error "no 'ni' in 'li pali e ni' token"
          else
            .error "no 'e' in 'li pali e ni' token"
        else
          .ok (cur, toks) : Except String (Nat × List Token))
      with
      | .error msg => .error msg
      | .ok (cur, toks) =>
        if expectW ws cur (· = Word.pana) then
          let cur := cur + 1
          if expectW ws cur (· = Word.e) then
            .ok (cur + 1, toks ++ [Token.liPanaE])
          else
            .error "no 'e' in 'li pana e' token"
        else
          .ok (cur, toks)

/-- `Abstracter::tokenize_tenpo` (main.rs lines 518-545). -/
def tokenizeTenpo (ws : List Word) (cur : Nat) (toks : List Token) :
    Except String (Nat × List Token) :=
  if !expectW ws cur (· = Word.tenpo) then
    .ok (cur, toks)
  else
    let cur := cur + 1
    if expectW ws cur (· = Word.ale) then
      let cur := cur + 1
      if expectW ws cur (· = Word.pi) then
        .ok (cur + 1, toks ++ [Token.tenpoAlePi])
      else
        .error "no 'pi' in 'tenpo ale pi'"
    else if expectW ws cur (· = Word.pi) then
      .ok (cur + 1, toks ++ [Token.tenpoPi])
    else
      .error "not a valid tenpo statement"

/-- Followers after `li` that the assembler recognizes (main.rs lines
555-600): kama, kepeken, pali, pana. -/
def Word.isLiFollower : Word → Bool
  | .kama => true
  | .kepeken => true
  | .pali => true
  | .pana => true
  | _ => false

/-- Followers after `o` that the assembler recognizes (main.rs lines
432-465): tawa, a name, weka, sin, pini. -/
def Word.isOFollower : Word → Bool
  | .tawa => true
  | .name _ => true
  | .weka => true
  | .sin => true
  | .pini => true
  | _ => false

/-- Precedence ladder (main.rs lines 87-95). -/
inductive Precedence where
  | undefined
  | comparing
  | linear
  | scaling
  | unary
  | theBiggest
  deriving DecidableEq, Repr

/-- Discriminant value of a Precedence, used for the derived `PartialOrd`
comparison of the Rust enum. -/
def Precedence.val : Precedence → Nat
  | .undefined => 0
  | .comparing => 1
  | .linear => 2
  | .scaling => 3
  | .unary => 4
  | .theBiggest => 5

/-- `Precedence::next` (main.rs lines 97-108), saturating at the top. -/
def Precedence.next : Precedence → Precedence
  | .undefined => .comparing
  | .comparing => .linear
  | .linear => .scaling
  | .scaling => .unary
  | .unary => .theBiggest
  | .theBiggest => .theBiggest

/-- Binary operator kinds (main.rs lines 709-718). -/
inductive BinaryExpressionType where
  | add
  | multiply
  | subtract
  | divide
  | greaterThan
  | equals
  | lessThan
  deriving DecidableEq, Repr

/-- `get_precedence` (main.rs lines 110-118). -/
def getPrecedence : BinaryExpressionType → Precedence
  | .add | .subtract => .linear
  | .multiply | .divide => .scaling
  | .greaterThan | .equals | .lessThan => .comparing

/- Expression AST (main.rs lines 694-877).  `NimiExpression` and
`NanpaExpression` / `LinjaExpression` are single-field structs in the source
and are inlined here as the payloads of the corresponding constructors. -/
mutual
inductive UnaryExpression where
  | nanpa (value : Int)
  | nimi (value : String)
  | oCall (value : OExpression)
  | linja (value : String)
inductive BinaryExpression where
  | mk (lhs : Expression) (rhs : Expression) (kind : BinaryExpressionType)
inductive Expression where
  | unary (u : UnaryExpression)
  | binary (b : BinaryExpression)
inductive OExpression where
  | mk (nimi : String) (params : List Expression)
end

def BinaryExpression.lhs : BinaryExpression → Expression
  | .mk l _ _ => l

def BinaryExpression.rhs : BinaryExpression → Expression
  | .mk _ r _ => r

def BinaryExpression.kind : BinaryExpression → BinaryExpressionType
  | .mk _ _ k => k

def OExpression.nimi : OExpression → String
  | .mk n _ => n

def OExpression.params : OExpression → List Expression
  | .mk _ ps => ps

/-- Statement AST (main.rs lines 861-877).  `Node::Pali`'s `PaliStatement`
payload is flattened into constructor fields. -/
inductive Node where
  | expression (e : Expression)
  | asenpeli (value : String)
  | liKamaSama (nimi : String) (expr : Expression)
  | tenpo (expr : Expression) (nodes : List Node)
  | tenpoAle (expr : Expression) (nodes : List Node)
  | otawa (expr : Expression)
  | oSin (varType : String) (name : String) (expr : Option Expression)
  | pali (nimi : String) (params : List (String × String))
      (nodes : List Node) (retval : Option String)
  | paliDeclaration (nimi : String) (params : List (String × String))
      (retval : Option String)
  | oStmt (e : OExpression)
  | openingTab (n : Nat)
  | oWeka (expr : Option Expression)
  | parenthesis (nodes : List Node)
  | kepeken (nimi : String)

/-- `PaliStatement` (main.rs lines 829-834); `params` pairs are
(type name, parameter name). -/
structure PaliStatement where
  nimi : String
  params : List (String × String)
  nodes : List Node
  retval : Option String

/-- `PaliDeclaration` (main.rs lines 837-841). -/
structure PaliDeclaration where
  nimi : String
  params : List (String × String)
  retval : Option String
  deriving DecidableEq, Repr

/-- Discriminant test used by `parse_pali`'s implicit-return check
(main.rs lines 1194-1197): is the node a `Node::OWeka`? -/
def Node.isOWekaNode : Node → Bool
  | .oWeka _ => true
  | _ => false

/-- The implicit-return fixup at the end of `Parser::parse_pali` (main.rs
lines 1194-1199): append `o weka` unless some statement of the body already
is one. -/
def paliFixup (raw : List Node) : List Node :=
  if raw.any Node.isOWekaNode then raw else raw ++ [Node.oWeka none]

/-- `Parser::expect` (main.rs lines 895-906), modelled per use site by the
discriminant predicate it tests. -/
def expectT (toks : List Token) (cur : Nat) (p : Token → Bool) : Bool :=
  match toks[cur]? with
  | none => false
  | some t => p t

def digitVal (c : Char) : Option Nat :=
  if c = '0' then some 0
  else if c = '1' then some 1
  else if c = '2' then some 2
  else if c = '3' then some 3
  else if c = '4' then some 4
  else if c = '5' then some 5
  else if c = '6' then some 6
  else if c = '7' then some 7
  else if c = '8' then some 8
  else if c = '9' then some 9
  else none

def digitsVal : List Char → Option Nat
  | [] => none
  | [c] => digitVal c
  | c :: rest =>
    match digitsVal rest, digitVal c with
    | some n, some d => some (d * 10 ^ rest.length + n)
    | _, _ => none

/-- Rust `str::parse::<isize>` as used at main.rs line 917: an optional
sign followed by one or more ASCII digits. -/
def parseIsize (s : String) : Option Int :=
  match s.toList with
  | '-' :: rest => (digitsVal rest).map (fun n => -(n : Int))
  | '+' :: rest => (digitsVal rest).map (fun n => (n : Int))
  | l => (digitsVal l).map (fun n => (n : Int))

/-- `Parser::parse_nanpa_expression` (main.rs lines 908-925). -/
def parseNanpaExpression (toks : List Token) (cur : Nat) :
    Except String (Int × Nat) :=
  match toks.get? cur with
  | none => .error "panic: peek at end"
  | some (.number s) =>
    match parseIsize s with
    | some v => .ok (v, cur + 1)
    | none => .error "not a valid number"
  | some _ => .error "not a number"

/-- `Parser::parse_nimi_expression` (main.rs lines 927-944). -/
def parseNimiExpression (toks : List Token) (cur : Nat) :
    Except String (String × Nat) :=
  match toks.get? cur with
  | none => .error "panic: peek at end"
  | some (.name s) => .ok (s, cur + 1)
  | some _ => .error "not a name"

/-- `Parser::parse_type` (main.rs lines 1209-1235). -/
def parseType (toks : List Token) (cur : Nat) : Except String (String × Nat) :=
  match toks.get? cur with
  | none => .error "Unexpected end of file"
  | some t =>
    match
      (match t with
       | .nanpa => some "nanpa"
       | .linja => some "linja"
       | _ => none)
    with
    | none => .error "Not a type"
    | some vartype =>
      let cur := cur + 1
      match toks.get? cur with
      | none => .error "Unexpected end of file"
      | some t2 =>
        if t2 = Token.awen then
          .error "todo: implement constants"
        else
          .ok (vartype, cur)

/-- `Parser::parse_kepeken` (main.rs lines 946-956): expects a string
literal then calls `parse_nimi_expression`, which necessarily fails there. -/
def parseKepeken (toks : List Token) (cur : Nat) :
    Except String (String × Nat) :=
  if !expectT toks cur (fun t => match t with | .stringLiteral _ => true | _ => false) then
    .error "not a kepeken statement"
  else
    parseNimiExpression toks cur

/-- `Parser::parse_o_sin` (main.rs lines 1237-1252).  Note the declared
type is parsed and then discarded: the statement's `var_type` is hardcoded
to "nanpa". -/
def parseOSin (toks : List Token) (cur : Nat) :
    Except String ((String × String × Option Expression) × Nat) :=
  let cur := cur + 1
  match parseType toks cur with
  | .error msg => .error msg
  | .ok (_variableType, cur) =>
    match parseNimiExpression toks cur with
    | .error msg => .error msg
    | .ok (name, cur) => .ok (("nanpa", name, none), cur)

mutual

/-- `Parser::parse_unary_expression` (main.rs lines 958-979). -/
def parseUnaryExpression (fuel : Nat) (toks : List Token) (cur : Nat) :
    Except String (UnaryExpression × Nat) :=
  match fuel with
  | 0 => .error "fuel"
  | fuel + 1 =>
    match toks.get? cur with
    | none => .error "panic: peek at end"
    | some t =>
      match t with
      | .number _ =>
        match parseNanpaExpression toks cur with
        | .error msg => .error msg
        | .ok (v, cur) => .ok (.nanpa v, cur)
      | .name _ =>
        match parseNimiExpression toks cur with
        | .error msg => .error msg
        | .ok (s, cur) => .ok (.nimi s, cur)
      | .o =>
        match parseO fuel toks cur with
        | .error msg => .error msg
        | .ok (oe, cur) => .ok (.oCall oe, cur)
      | .stringLiteral _ => .error "todo: parse linja expression"
      | _ => .error "Not an unary expression"
termination_by structural fuel

/-- `Parser::parse_expression` (main.rs lines 981-1033): precedence
climbing; the folding loop is `parseExprLoop` below. -/
def parseExpression (fuel : Nat) (toks : List Token) (cur : Nat)
    (minPrecedence : Precedence) : Except String (Expression × Nat) :=
  match fuel with
  | 0 => .error "fuel"
  | fuel + 1 =>
    match parseUnaryExpression fuel toks cur with
    | .error msg => .error msg
    | .ok (u, cur) => parseExprLoop fuel toks cur (Expression.unary u) minPrecedence
termination_by structural fuel

/-- The `loop` inside `Parser::parse_expression` (main.rs lines 989-1030). -/
def parseExprLoop (fuel : Nat) (toks : List Token) (cur : Nat)
    (lhs : Expression) (minPrecedence : Precedence) :
    Except String (Expression × Nat) :=
  match fuel with
  | 0 => .error "fuel"
  | fuel + 1 =>
    match toks.get? cur with
    | none => .ok (lhs, cur)
    | some t =>
      match
        (match t with
         | .plus => some BinaryExpressionType.add
         | .minus => some BinaryExpressionType.subtract
         | .star => some BinaryExpressionType.multiply
         | .forwardSlash => some BinaryExpressionType.divide
         | .greaterThan => some BinaryExpressionType.greaterThan
         | .lessThan => some BinaryExpressionType.lessThan
         | .equals => some BinaryExpressionType.equals
         | _ => none)
      with
      | none => .ok (lhs, cur)
      | some binaryType =>
        let currentPrecedence := getPrecedence binaryType
        if currentPrecedence.val < minPrecedence.val then
          .ok (lhs, cur)
        else
          match parseExpression fuel toks (cur + 1) currentPrecedence.next with
          | .error msg => .error msg
          | .ok (rhs, cur) =>
            parseExprLoop fuel toks cur
              (Expression.binary (.mk lhs rhs binaryType)) minPrecedence
termination_by structural fuel

/-- `Parser::parse_o` (main.rs lines 1086-1118): call expression
`o <name> (e <expr>)* a`. -/
def parseO (fuel : Nat) (toks : List Token) (cur : Nat) :
    Except String (OExpression × Nat) :=
  match fuel with
  | 0 => .error "fuel"
  | fuel + 1 =>
    if !expectT toks cur (· = Token.o) then
      .error "not an o expression"
    else
      let cur := cur + 1
      match parseNimiExpression toks cur with
      | .error msg => .error msg
      | .ok (nimi, cur) =>
        match
          (if expectT toks cur (· = Token.e) then
            parseOParams fuel toks (cur + 1) []
          else
            .ok (([] : List Expression), cur))
        with
        | .error msg => .error msg
        | .ok (params, cur) =>
          if !expectT toks cur (· = Token.a) then
            .error "not happy enough!"
          else
            .ok (OExpression.mk nimi params, cur + 1)
termination_by structural fuel

/-- The argument loop inside `Parser::parse_o` (main.rs lines 1101-1108). -/
def parseOParams (fuel : Nat) (toks : List Token) (cur : Nat)
    (params : List Expression) : Except String (List Expression × Nat) :=
  match fuel with
  | 0 => .error "fuel"
  | fuel + 1 =>
    match parseExpression fuel toks cur .undefined with
    | .error msg => .error msg
    | .ok (p, cur) =>
      let params := params ++ [p]
      if !expectT toks cur (· = Token.e) then
        .ok (params, cur)
      else
        parseOParams fuel toks (cur + 1) params
termination_by structural fuel

/-- `Parser::parse_otawa` (main.rs lines 1035-1054). -/
def parseOtawa (fuel : Nat) (toks : List Token) (cur : Nat) :
    Except String (Expression × Nat) :=
  match fuel with
  | 0 => .error "fuel"
  | fuel + 1 =>
    match toks.get? cur with
    | none => .error "panic: peek at end"
    | some t =>
      if !(t = Token.oTawa) then
        .error "Not an otawa statement"
      else
        parseExpression fuel toks (cur + 1) .undefined

/-- `Parser::parse_o_weka` (main.rs lines 1120-1132). -/
def parseOWeka (fuel : Nat) (toks : List Token) (cur : Nat) :
    Except String (Option Expression × Nat) :=
  match fuel with
  | 0 => .error "fuel"
  | fuel + 1 =>
    if !expectT toks cur (· = Token.oWeka) then
      .error "not an o weka statement"
    else
      let cur := cur + 1
      if expectT toks cur (· = Token.e) then
        match parseExpression fuel toks (cur + 1) .undefined with
        | .error msg => .error msg
        | .ok (e, cur) => .ok (some e, cur)
      else
        .ok (none, cur)

/-- `Parser::parse_tenpo` (main.rs lines 1057-1083).  The body loop parses
a statement first and checks for the terminator after it. -/
def parseTenpo (fuel : Nat) (toks : List Token) (cur : Nat) :
    Except String ((Expression × List Node) × Nat) :=
  match fuel with
  | 0 => .error "fuel"
  | fuel + 1 =>
    if !expectT toks cur (· = Token.tenpoPi) then
      .error "not a tenpo statement"
    else
      match parseExpression fuel toks (cur + 1) .undefined with
      | .error msg => .error msg
      | .ok (e, cur) =>
        if !expectT toks cur (· = Token.la) then
          .error "no la in tenpo statement"
        else
          match parseTenpoBody fuel toks (cur + 1) [] with
          | .error msg => .error msg
          | .ok (nodes, cur) => .ok ((e, nodes), cur)
termination_by structural fuel

/-- The body loop of `Parser::parse_tenpo` (main.rs lines 1072-1078). -/
def parseTenpoBody (fuel : Nat) (toks : List Token) (cur : Nat)
    (nodes : List Node) : Except String (List Node × Nat) :=
  match fuel with
  | 0 => .error "fuel"
  | fuel + 1 =>
    match parseStatement fuel toks cur with
    | .error msg => .error msg
    | .ok (n, cur) =>
      let nodes := nodes ++ [n]
      if expectT toks cur (· = Token.oPini) then
        .ok (nodes, cur + 1)
      else
        parseTenpoBody fuel toks cur nodes
termination_by structural fuel

/-- `Parser::parse_parenthesis` (main.rs lines 1271-1287). -/
def parseParenthesis (fuel : Nat) (toks : List Token) (cur : Nat) :
    Except String (List Node × Nat) :=
  match fuel with
  | 0 => .error "fuel"
  | fuel + 1 =>
    if !expectT toks cur (· = Token.openParenthesis) then
      .error "not an opening parenthesis"
    else
      parseParenBody fuel toks (cur + 1) []
termination_by structural fuel

/-- The body loop of `Parser::parse_parenthesis` (main.rs lines 1278-1284). -/
def parseParenBody (fuel : Nat) (toks : List Token) (cur : Nat)
    (nodes : List Node) : Except String (List Node × Nat) :=
  match fuel with
  | 0 => .error "fuel"
  | fuel + 1 =>
    if expectT toks cur (· = Token.closeParenthesis) then
      .ok (nodes, cur + 1)
    else
      match parseStatement fuel toks cur with
      | .error msg => .error msg
      | .ok (n, cur) => parseParenBody fuel toks cur (nodes ++ [n])
termination_by structural fuel

/-- `Parser::parse_li_kama_sama` (main.rs lines 1254-1269). -/
def parseLiKamaSama (fuel : Nat) (toks : List Token) (cur : Nat) :
    Except String ((String × Expression) × Nat) :=
  match fuel with
  | 0 => .error "fuel"
  | fuel + 1 =>
    match parseNimiExpression toks cur with
    | .error msg => .error msg
    | .ok (nimi, cur) =>
      if !expectT toks cur (· = Token.liKamaSama) then
        .error "No 'li kama sama' in kama sama statement"
      else
        match parseExpression fuel toks (cur + 1) .undefined with
        | .error msg => .error msg
        | .ok (e, cur) => .ok ((nimi, e), cur)

/-- `Parser::parse_pali` (main.rs lines 1135-1207): function definition or
external declaration. -/
def parsePali (fuel : Nat) (toks : List Token) (cur : Nat) :
    Except String ((Option PaliStatement × Option PaliDeclaration) × Nat) :=
  match fuel with
  | 0 => .error "fuel"
  | fuel + 1 =>
    if !expectT toks cur (· = Token.pali) then
      .error "not a pali statement"
    else
      match parseNimiExpression toks (cur + 1) with
      | .error msg => .error msg
      | .ok (nimi, cur) =>
        match parsePaliOpts fuel toks cur false false [] none with
        | .error msg => .error msg
        | .ok ((params, retval), cur) =>
          if !expectT toks cur (· = Token.liPaliENi) then
            .ok ((none, some { nimi := nimi, params := params, retval := retval }), cur)
          else
            match parsePaliBody fuel toks (cur + 1) [] with
            | .error msg => .error msg
            | .ok (raw, cur) =>
              .ok ((some { nimi := nimi, params := params,
                           nodes := paliFixup raw, retval := retval }, none), cur)
termination_by structural fuel

/-- The option loop of `Parser::parse_pali` (main.rs lines 1147-1167):
return type (`li pana e`) and parameter list (`li kepeken`), each at most
once, in either order. -/
def parsePaliOpts (fuel : Nat) (toks : List Token) (cur : Nat)
    (hasParams hasType : Bool) (params : List (String × String))
    (retval : Option String) :
    Except String ((List (String × String) × Option String) × Nat) :=
  match fuel with
  | 0 => .error "fuel"
  | fuel + 1 =>
    if expectT toks cur (· = Token.liPanaE) && !hasType then
      match parseType toks (cur + 1) with
      | .error msg => .error msg
      | .ok (t, cur) => parsePaliOpts fuel toks cur hasParams true params (some t)
    else if expectT toks cur (· = Token.liKepeken) && !hasParams then
      match parsePaliParams fuel toks (cur + 1) params with
      | .error msg => .error msg
      | .ok (params, cur) => parsePaliOpts fuel toks cur true hasType params retval
    else
      .ok ((params, retval), cur)
termination_by structural fuel

/-- The parameter loop of `Parser::parse_pali` (main.rs lines 1155-1162). -/
def parsePaliParams (fuel : Nat) (toks : List Token) (cur : Nat)
    (params : List (String × String)) :
    Except String (List (String × String) × Nat) :=
  match fuel with
  | 0 => .error "fuel"
  | fuel + 1 =>
    match parseType toks cur with
    | .error msg => .error msg
    | .ok (t, cur) =>
      match parseNimiExpression toks cur with
      | .error msg => .error msg
      | .ok (n, cur) =>
        let params := params ++ [(t, n)]
        if !expectT toks cur (· = Token.en) then
          .ok (params, cur)
        else
          parsePaliParams fuel toks (cur + 1) params
termination_by structural fuel

/-- The body loop of `Parser::parse_pali` (main.rs lines 1182-1192): checks
for the terminator before each statement (an empty body is allowed). -/
def parsePaliBody (fuel : Nat) (toks : List Token) (cur : Nat)
    (nodes : List Node) : Except String (List Node × Nat) :=
  match fuel with
  | 0 => .error "fuel"
  | fuel + 1 =>
    if expectT toks cur (· = Token.oPini) then
      .ok (nodes, cur + 1)
    else
      match parseStatement fuel toks cur with
      | .error msg => .error msg
      | .ok (n, cur) => parsePaliBody fuel toks cur (nodes ++ [n])
termination_by structural fuel

/-- `Parser::parse_statement` (main.rs lines 1289-1328). -/
def parseStatement (fuel : Nat) (toks : List Token) (cur : Nat) :
    Except String (Node × Nat) :=
  match fuel with
  | 0 => .error "fuel"
  | fuel + 1 =>
    match toks.get? cur with
    | none => .error "Out of tokens!"
    | some t =>
      match t with
      | .oTawa =>
        match parseOtawa fuel toks cur with
        | .error msg => .error msg
        | .ok (e, cur) => .ok (Node.otawa e, cur)
      | .asen => .error "todo: Asenpeli"
      | .tenpo => .error "todo: Tenpo"
      | .name _ =>
        match parseLiKamaSama fuel toks cur with
        | .error msg => .error msg
        | .ok ((nimi, e), cur) => .ok (Node.liKamaSama nimi e, cur)
      | .oSin =>
        match parseOSin toks cur with
        | .error msg => .error msg
        | .ok ((vt, name, e), cur) => .ok (Node.oSin vt name e, cur)
      | .pali =>
        match parsePali fuel toks cur with
        | .error msg => .error msg
        | .ok ((st?, decl?), cur) =>
          match decl? with
          | some d => .ok (Node.paliDeclaration d.nimi d.params d.retval, cur)
          | none =>
            match st? with
            | some st => .ok (Node.pali st.nimi st.params st.nodes st.retval, cur)
            | none => .error "panic: unwrap on None"
      | .openingTab n => .ok (Node.openingTab n, cur + 1)
      | .oWeka =>
        match parseOWeka fuel toks cur with
        | .error msg => .error msg
        | .ok (e, cur) => .ok (Node.oWeka e, cur)
      | .o =>
        match parseO fuel toks cur with
        | .error msg => .error msg
        | .ok (oe, cur) => .ok (Node.oStmt oe, cur)
      | .openParenthesis =>
        match parseParenthesis fuel toks cur with
        | .error msg => .error msg
        | .ok (nodes, cur) => .ok (Node.parenthesis nodes, cur)
      | .tenpoPi =>
        match parseTenpo fuel toks cur with
        | .error msg => .error msg
        | .ok ((e, nodes), cur) => .ok (Node.tenpo e nodes, cur)
      | .kepeken =>
        match parseKepeken toks cur with
        | .error msg => .error msg
        | .ok (nimi, cur) => .ok (Node.kepeken nimi, cur)
      | _ => .error "todo: unexpected token in statement position"
termination_by structural fuel
end

/-- `Variable` (main.rs lines 1343-1347). -/
structure Variable where
  typeName : String
  stackPos : Nat
  deriving DecidableEq, Repr

/-- `Function` (main.rs lines 1349-1353). -/
structure Function where
  returnType : Option String
  parameterTypes : List String
  deriving DecidableEq, Repr

/-- `Environment` (main.rs lines 1360-1365).  The `names` HashMap is
modelled as an association list with unique keys. -/
structure Environment where
  names : List (String × Variable)
  stackPointer : Nat
  tabDepth : Nat
  deriving DecidableEq, Repr

/-- `Type` (main.rs lines 1367-1371); renamed since `Type` is reserved. -/
structure TypeDef where
  size : Nat
  name : String
  deriving DecidableEq, Repr

/-- `Scope` (main.rs lines 1373-1379). -/
structure Scope where
  functions : List (String × Function)
  types : List (String × TypeDef)
  envs : List Environment
  labelCounter : Nat
  deriving DecidableEq, Repr

/-- `HashMap::insert`: replace the value if the key is present, otherwise
add the entry. -/
def insertAssoc {α : Type} (k : String) (v : α) : List (String × α) → List (String × α)
  | [] => [(k, v)]
  | (k', v') :: rest =>
    if k' = k then (k, v) :: rest else (k', v') :: insertAssoc k v rest

/-- `Environment::add_name` (main.rs lines 1481-1491): the recorded
`stack_pos` is the environment's current `stack_pointer` (the `size`
argument of the Rust function is unused there). -/
def Environment.addName (env : Environment) (name : String) (variableType : String) :
    Environment :=
  { env with
    names := insertAssoc name
      { typeName := variableType, stackPos := env.stackPointer } env.names }

/-- `Environment::get_variable` (main.rs lines 1497-1505). -/
def Environment.getVariable (env : Environment) (name : String) :
    Except String Variable :=
  match env.names.lookup name with
  | none => .error (name ++ " is not a valid name")
  | some v => .ok v

/-- `Scope::get_type` (main.rs lines 1390-1392). -/
def Scope.getType (sc : Scope) (name : String) : Option TypeDef :=
  sc.types.lookup name

/-- `Scope::get_function` (main.rs lines 1472-1477). -/
def Scope.getFunction (sc : Scope) (name : String) : Except String Function :=
  match sc.functions.lookup name with
  | some f => .ok f
  | none => .error ("No function named " ++ name)

/-- `Scope::add_function` (main.rs lines 1394-1402), on the flattened
fields of a `PaliStatement`. -/
def Scope.addFunction (sc : Scope) (nimi : String)
    (params : List (String × String)) (retval : Option String) : Scope :=
  { sc with
    functions := insertAssoc nimi
      { returnType := retval, parameterTypes := params.map (fun p => p.1) }
      sc.functions }

/-- `Scope::declare_function` (main.rs lines 1404-1412): identical to
`add_function` but taking a `PaliDeclaration`. -/
def Scope.declareFunction (sc : Scope) (nimi : String)
    (params : List (String × String)) (retval : Option String) : Scope :=
  { sc with
    functions := insertAssoc nimi
      { returnType := retval, parameterTypes := params.map (fun p => p.1) }
      sc.functions }

/-- The reversed search loop of `Scope::get_variable` (main.rs lines
1428-1444): find the innermost (largest-index) Environment containing the
name, together with its index. -/
def findInnermost (name : String) : List Environment → Option (Nat × Variable)
  | [] => none
  | env :: rest =>
    match findInnermost name rest with
    | some (k, v) => some (k + 1, v)
    | none =>
      match env.names.lookup name with
      | some v => some (0, v)
      | none => none

/-- `Scope::get_variable` (main.rs lines 1426-1470).  `start_offset` adds
the `stack_pointer` of every Environment with index strictly below the
found one, then the variable's `stack_pos` (lines 1450-1458);
`base_offset` adds the `stack_pointer` of every Environment except the
last (innermost) one (lines 1460-1466); the result is their difference as
a signed integer (line 1468). -/
def Scope.getVariable (sc : Scope) (name : String) :
    Except String (Variable × Int) :=
  match findInnermost name sc.envs with
  | none =>
    if sc.envs.isEmpty then .error "panic: unreachable"
    else .error (name ++ " is not a valid name")
  | some (k, v) =>
    let startOffset : Nat :=
      (sc.envs.take k).foldl (fun acc env => acc + env.stackPointer) 0 + v.stackPos
    let baseOffset : Nat :=
      (sc.envs.take (sc.envs.length - 1)).foldl
        (fun acc env => acc + env.stackPointer) 0
    .ok (v, (startOffset : Int) - (baseOffset : Int))

/-- Generator state: the threaded `Scope`, the assembly text written to the
`BufWriter` sink (one entry per `writeln!` line), and the compiler's own
stdout (the `println!` at main.rs line 1420). -/
structure GenSt where
  scope : Scope
  asm : List String
  out : List String
  deriving DecidableEq, Repr

def emit (st : GenSt) (l : String) : GenSt := { st with asm := st.asm ++ [l] }

def emits (st : GenSt) (ls : List String) : GenSt := { st with asm := st.asm ++ ls }

def emitOut (st : GenSt) (l : String) : GenSt := { st with out := st.out ++ [l] }

/-- Mutate the innermost Environment (`Scope::get_environment_mut`,
main.rs lines 1382-1384; the `unwrap` on an empty stack is an error). -/
def updateLastEnv (f : Environment → Except String Environment) :
    List Environment → Except String (List Environment)
  | [] => .error "panic: no environment"
  | [env] =>
    match f env with
    | .error msg => .error msg
    | .ok env' => .ok [env']
  | env :: rest =>
    match updateLastEnv f rest with
    | .error msg => .error msg
    | .ok rest' => .ok (env :: rest')

def GenSt.updateEnv (st : GenSt) (f : Environment → Except String Environment) :
    Except String GenSt :=
  match updateLastEnv f st.scope.envs with
  | .error msg => .error msg
  | .ok envs => .ok { st with scope := { st.scope with envs := envs } }

/-- `stack_pointer += size` on the current Environment. -/
def spAdd (size : Nat) (st : GenSt) : Except String GenSt :=
  st.updateEnv (fun env => .ok { env with stackPointer := env.stackPointer + size })

/-- `stack_pointer -= size` on the current Environment; usize underflow is
a Rust (debug) panic, modelled as an error. -/
def spSub (size : Nat) (st : GenSt) : Except String GenSt :=
  st.updateEnv (fun env =>
    if size ≤ env.stackPointer then
      .ok { env with stackPointer := env.stackPointer - size }
    else .error "panic: usize underflow")

/-- `Generator::get_argument_register` (main.rs lines 1519-1529). -/
def Generator.getArgumentRegister (arg : Nat) : String :=
  match arg with
  | 0 => "rdi"
  | 1 => "rsi"
  | 2 => "rdx"
  | 3 => "rcx"
  | 4 => "r8"
  | 5 => "r9"
  | _ => "r9"

/-- `Generator::get_word_from_size` (main.rs lines 1531-1539). -/
def Generator.getWordFromSize (size : Nat) : Except String String :=
  match size with
  | 1 => .ok "byte"
  | 2 => .ok "word"
  | 4 => .ok "dword"
  | 8 => .ok "qword"
  | _ => .error "todo: unknown size"

/-- `Generator::push` (main.rs lines 1541-1545). -/
def Generator.push (i : Int) (size : Nat) (st : GenSt) : Except String GenSt :=
  spAdd size (emits st ["    mov r8, " ++ toString i, "    push r8"])

/-- `Generator::push_reg` (main.rs lines 1547-1550). -/
def Generator.pushReg (reg : String) (size : Nat) (st : GenSt) :
    Except String GenSt :=
  match Generator.getWordFromSize size with
  | .error msg => .error msg
  | .ok w => spAdd size (emit st ("    push " ++ w ++ " " ++ reg))

/-- `Generator::pop_reg` (main.rs lines 1552-1555). -/
def Generator.popReg (reg : String) (size : Nat) (st : GenSt) :
    Except String GenSt :=
  match Generator.getWordFromSize size with
  | .error msg => .error msg
  | .ok w => spSub size (emit st ("    pop " ++ w ++ " " ++ reg))

/-- `Generator::mov` (main.rs lines 1557-1559). -/
def Generator.mov (dst : String) (size : Nat) (src : String) (st : GenSt) :
    Except String GenSt :=
  match Generator.getWordFromSize size with
  | .error msg => .error msg
  | .ok w => .ok (emit st ("    mov " ++ dst ++ ", " ++ w ++ " " ++ src))

/-- `Generator::zero` (main.rs lines 1561-1563). -/
def Generator.zero (reg : String) (st : GenSt) : GenSt :=
  emit st ("    xor " ++ reg ++ ", " ++ reg)

/-- `Scope::add_variable` (main.rs lines 1414-1424).  With a register the
value is pushed (and accounted); without one the `sub rsp` line goes to the
compiler's stdout via `println!` and the stack accounting is not touched.
Either way the variable is then recorded in the innermost Environment. -/
def Scope.addVariable (name variableType : String) (reg : Option String)
    (st : GenSt) : Except String GenSt :=
  match st.scope.getType variableType with
  | none => .error "panic: unwrap on None"
  | some td =>
    match
      (match reg with
       | some r => Generator.pushReg r td.size st
       | none => .ok (emitOut st ("    sub rsp, " ++ Nat.repr td.size)))
    with
    | .error msg => .error msg
    | .ok st =>
      st.updateEnv (fun env => .ok (env.addName name variableType))

/-- `UnaryExpression::get_type_name` (main.rs lines 779-788).  The `O` arm
returns the callee's (optional) return type via the `?` operator; the
`unwrap`s on failed lookups are errors. -/
def unaryTypeNameOpt (sc : Scope) : UnaryExpression → Except String (Option String)
  | .nanpa _ => .ok (some "nanpa")
  | .linja _ => .ok (some "linja")
  | .nimi n =>
    match sc.getVariable n with
    | .error msg => .error msg
    | .ok (v, _) => .ok (some v.typeName)
  | .oCall oe =>
    match sc.getFunction oe.nimi with
    | .error msg => .error msg
    | .ok f => .ok f.returnType

mutual

/-- `Expression::get_type_name` (main.rs lines 700-707); the `unwrap` on a
`None` unary type is an error. -/
def exprTypeName (fuel : Nat) (sc : Scope) (e : Expression) : Except String String :=
  match fuel with
  | 0 => .error "fuel"
  | fuel + 1 =>
    match e with
    | .unary u =>
      match unaryTypeNameOpt sc u with
      | .error msg => .error msg
      | .ok (some t) => .ok t
      | .ok none => .error "panic: unwrap on None"
    | .binary b => binTypeName fuel sc b

/-- `BinaryExpression::get_type_name` (main.rs lines 727-752): both hands
must agree. -/
def binTypeName (fuel : Nat) (sc : Scope) (b : BinaryExpression) : Except String String :=
  match fuel with
  | 0 => .error "fuel"
  | fuel + 1 =>
    match b with
    | .mk lhs rhs _ =>
      match handTypeName fuel sc lhs with
      | .error msg => .error msg
      | .ok lt =>
        match handTypeName fuel sc rhs with
        | .error msg => .error msg
        | .ok rt =>
          if lt = rt then .ok rt
          else .error "Expressions have incompatible types"
termination_by structural fuel

/-- One hand of a binary expression (main.rs lines 729-741): a unary hand
without a type is the `expect` panic. -/
def handTypeName (fuel : Nat) (sc : Scope) (e : Expression) : Except String String :=
  match fuel with
  | 0 => .error "fuel"
  | fuel + 1 =>
    match e with
    | .binary b => binTypeName fuel sc b
    | .unary u =>
      match unaryTypeNameOpt sc u with
      | .error msg => .error msg
      | .ok (some t) => .ok t
      | .ok none => .error "binary expression hand has no type"
termination_by structural fuel

end

/-- `scope.get_type(&e.get_type_name(scope)).unwrap().size`, the idiom used
throughout the generator (e.g. main.rs lines 1658, 1703, 1742). -/
def exprTypeSize (fuel : Nat) (sc : Scope) (e : Expression) : Except String Nat :=
  match exprTypeName fuel sc e with
  | .error msg => .error msg
  | .ok t =>
    match sc.getType t with
    | none => .error "panic: unwrap on None"
    | some td => .ok td.size

/-- The argument-type list at a call site (main.rs lines 1731-1735). -/
def exprTypeNames (fuel : Nat) (sc : Scope) : List Expression → Except String (List String)
  | [] => .ok []
  | e :: rest =>
    match exprTypeName fuel sc e with
    | .error msg => .error msg
    | .ok t =>
      match exprTypeNames fuel sc rest with
      | .error msg => .error msg
      | .ok ts => .ok (t :: ts)

/-- `Generator::generate_nimi_expression` (main.rs lines 1569-1577). -/
def genNimiExpr (name : String) (st : GenSt) : Except String GenSt :=
  match st.scope.getVariable name with
  | .error msg => .error msg
  | .ok (v, offset) =>
    let st := emits st
      ["", "    ; Getting value of variable " ++ name ++ " with offset " ++ toString offset]
    match st.scope.getType v.typeName with
    | none => .error "panic: unwrap on None"
    | some td =>
      Generator.pushReg ("[rbp - " ++ toString offset ++ "]") td.size st

/-- `Generator::generate_nimi_new` (main.rs lines 1583-1606): declare a
fresh variable in the innermost environment; a duplicate is fatal. -/
def genNimiNew (name variableType : String) (st : GenSt) : Except String GenSt :=
  match st.scope.envs.getLast? with
  | none => .error "panic: no environment"
  | some env =>
    match env.getVariable name with
    | .ok _ => .error ("There's already a variable named " ++ name ++ " in this scope")
    | .error _ =>
      let st := emits st ["", "    ; new " ++ variableType ++ " " ++ name]
      Scope.addVariable name variableType none st

/-- `Generator::generate_nimi_recieve_stack` (main.rs lines 1608-1627). -/
def genNimiReceiveStack (name : String) (st : GenSt) : Except String GenSt :=
  match st.scope.getVariable name with
  | .error _ => .error ("No variable named " ++ name)
  | .ok (v, offset) =>
    let st := emits st ["", "    ; Setting variable " ++ name]
    match st.scope.getType v.typeName with
    | none => .error "panic: unwrap on None"
    | some td =>
      match Generator.popReg "r9" td.size st with
      | .error msg => .error msg
      | .ok st =>
        Generator.mov ("[rbp - " ++ toString offset ++ "]") td.size "r9" st

mutual

/-- `Generator::generate_expression` (main.rs lines 1694-1699). -/
def genExpr (fuel : Nat) (e : Expression) (st : GenSt) : Except String GenSt :=
  match fuel with
  | 0 => .error "fuel"
  | fuel + 1 =>
    match e with
    | .unary u => genUnary fuel u st
    | .binary b => genBinary fuel b st
termination_by structural fuel

/-- `Generator::generate_unary_expression` (main.rs lines 1646-1653); the
`Linja` arm emits nothing. -/
def genUnary (fuel : Nat) (u : UnaryExpression) (st : GenSt) : Except String GenSt :=
  match fuel with
  | 0 => .error "fuel"
  | fuel + 1 =>
    match u with
    | .nanpa v => Generator.push v 8 st
    | .nimi n => genNimiExpr n st
    | .oCall oe => genO fuel oe st
    | .linja _ => .ok st
termination_by structural fuel

/-- `Generator::generate_binary_expression` (main.rs lines 1655-1692).
Note `sizel` (the LHS size) is used to pop the RHS into r9 and `sizer` to
pop the LHS into r8, exactly as in the source; the `<`/`>` arms emit
nothing (the `_ => {}` at line 1690). -/
def genBinary (fuel : Nat) (b : BinaryExpression) (st : GenSt) : Except String GenSt :=
  match fuel with
  | 0 => .error "fuel"
  | fuel + 1 =>
    match b with
    | .mk lhs rhs kind =>
      match genExpr fuel lhs st with
      | .error msg => .error msg
      | .ok st =>
        match genExpr fuel rhs st with
        | .error msg => .error msg
        | .ok st =>
          match exprTypeSize fuel st.scope lhs with
          | .error msg => .error msg
          | .ok sizel =>
            match exprTypeSize fuel st.scope rhs with
            | .error msg => .error msg
            | .ok sizer =>
              match Generator.popReg "r9" sizel st with
              | .error msg => .error msg
              | .ok st =>
                match Generator.popReg "r8" sizer st with
                | .error msg => .error msg
                | .ok st =>
                  match binTypeName fuel st.scope b with
                  | .error msg => .error msg
                  | .ok t =>
                    match st.scope.getType t with
                    | none => .error "panic: unwrap on None"
                    | some td =>
                      let size := td.size
                      match kind with
                      | .add =>
                        Generator.pushReg "r8" size (emit st "    add r8, r9")
                      | .subtract =>
                        Generator.pushReg "r8" size (emit st "    sub r8, r9")
                      | .multiply =>
                        match Generator.mov "rax" size "r8" st with
                        | .error msg => .error msg
                        | .ok st =>
                          Generator.pushReg "rax" size (emit st "    mul r9")
                      | .divide =>
                        let st := Generator.zero "rdx" st
                        match Generator.mov "rax" size "r8" st with
                        | .error msg => .error msg
                        | .ok st =>
                          Generator.pushReg "rax" size (emit st "    div r9")
                      | .equals =>
                        let st := Generator.zero "ecx" st
                        let st := emit st "    cmp r8, r9"
                        let st := emit st "    setz cl"
                        Generator.pushReg "rcx" size st
                      | .greaterThan => .ok st
                      | .lessThan => .ok st
termination_by structural fuel

/-- `Generator::generate_o` (main.rs lines 1722-1752): type-check the call,
emit the arguments (via `genOArgs`), emit the call, and push `rax` when the
callee has a return type. -/
def genO (fuel : Nat) (oe : OExpression) (st : GenSt) : Except String GenSt :=
  match fuel with
  | 0 => .error "fuel"
  | fuel + 1 =>
    match oe with
    | .mk name params =>
      match st.scope.getFunction name with
      | .error msg => .error msg
      | .ok func =>
        let st := emits st ["", "    ; o " ++ name]
        match exprTypeNames fuel st.scope params with
        | .error msg => .error msg
        | .ok argTypes =>
          if argTypes ≠ func.parameterTypes then
            .error "caller arguments do not match function parameters"
          else
            match genOArgs fuel params 0 st with
            | .error msg => .error msg
            | .ok st =>
              let st := emit st ("    call " ++ name)
              match func.returnType with
              | none => .ok st
              | some rt =>
                match st.scope.getType rt with
                | none => .error "panic: unwrap on None"
                | some td => Generator.pushReg "rax" td.size st
termination_by structural fuel

/-- The reversed argument loop of `Generator::generate_o` (main.rs lines
1740-1744): `for (index, expr) in o.params.iter().enumerate().rev()`.  The
elements after the head are processed first (they carry the later source
positions), then the head's expression is emitted and popped into the
register for position `i`. -/
def genOArgs (fuel : Nat) (params : List Expression) (i : Nat) (st : GenSt) :
    Except String GenSt :=
  match fuel with
  | 0 => .error "fuel"
  | fuel + 1 =>
    match params with
    | [] => .ok st
    | p :: rest =>
      match genOArgs fuel rest (i + 1) st with
      | .error msg => .error msg
      | .ok st =>
        match genExpr fuel p st with
        | .error msg => .error msg
        | .ok st =>
          match exprTypeSize fuel st.scope p with
          | .error msg => .error msg
          | .ok size =>
            Generator.popReg (Generator.getArgumentRegister i) size st
termination_by structural fuel

end

/-- `Generator::generate_otawa` (main.rs lines 1701-1710). -/
def genOtawa (fuel : Nat) (e : Expression) (st : GenSt) : Except String GenSt :=
  match genExpr fuel e st with
  | .error msg => .error msg
  | .ok st =>
    match exprTypeSize fuel st.scope e with
    | .error msg => .error msg
    | .ok size =>
      let st := emits st ["", "    ; Exit call:"]
      match Generator.popReg "rdi" size st with
      | .error msg => .error msg
      | .ok st =>
        match Generator.mov "rax" size "60" st with
        | .error msg => .error msg
        | .ok st => .ok (emits st ["    syscall", ""])

/-- `Generator::generate_o_weka` (main.rs lines 1754-1768); the return-value
size is computed before the expression is emitted, as in the source. -/
def genOWeka (fuel : Nat) (expr : Option Expression) (st : GenSt) :
    Except String GenSt :=
  match
    (match expr with
     | none => .ok st
     | some e =>
       match exprTypeSize fuel st.scope e with
       | .error msg => .error msg
       | .ok size =>
         match genExpr fuel e st with
         | .error msg => .error msg
         | .ok st => Generator.popReg "rax" size st : Except String GenSt)
  with
  | .error msg => .error msg
  | .ok st =>
    let st := emit st "    ; returning"
    match Generator.mov "rsp" 8 "rbp" st with
    | .error msg => .error msg
    | .ok st => .ok (emits st ["    pop rbp", "    ret"])

/-- `Generator::generate_o_sin` (main.rs lines 1629-1636). -/
def genOSin (fuel : Nat) (varType name : String) (expr : Option Expression)
    (st : GenSt) : Except String GenSt :=
  match
    (match expr with
     | some e => genExpr fuel e st
     | none => .ok st : Except String GenSt)
  with
  | .error msg => .error msg
  | .ok st => genNimiNew name varType st

/-- `Generator::generate_li_kama_sama_statement` (main.rs lines 1638-1644). -/
def genLiKamaSama (fuel : Nat) (nimi : String) (e : Expression) (st : GenSt) :
    Except String GenSt :=
  let st := emit st ""
  match genExpr fuel e st with
  | .error msg => .error msg
  | .ok st => genNimiReceiveStack nimi st

/-- `Generator::new_scope` (main.rs lines 1828-1835). -/
def newScope (st : GenSt) : GenSt :=
  let st := emit st "  ; new scope"
  { st with scope :=
    { st.scope with envs := st.scope.envs ++ [{ names := [], stackPointer := 0, tabDepth := 0 }] } }

/-- `Generator::end_scope` (main.rs lines 1837-1841). -/
def endScope (st : GenSt) : GenSt :=
  let st := { st with scope := { st.scope with envs := st.scope.envs.dropLast } }
  emits st ["  ; end of scope", ""]

/-- `names.len()` of the innermost environment, used for the `add rsp` on
leaving a block (main.rs lines 1786-1789 and 1851-1854). -/
def currentEnvNamesLen (st : GenSt) : Except String Nat :=
  match st.scope.envs.getLast? with
  | none => .error "panic: no environment"
  | some env => .ok env.names.length

/-- `Generator::generate_parameter` (main.rs lines 1712-1720) iterated over
the parameter list as in `generate_pali` (lines 1811-1817). -/
def genParams (params : List (String × String)) (offset : Nat) (st : GenSt) :
    Except String GenSt :=
  match params with
  | [] => .ok st
  | (ty, pname) :: rest =>
    let st := emit st ("    ; Setting parameter " ++ pname ++ " of type " ++ ty)
    match Scope.addVariable pname ty (some (Generator.getArgumentRegister offset)) st with
    | .error msg => .error msg
    | .ok st => genParams rest (offset + 1) st

/-- `Generator::generate_pali_declaration` (main.rs lines 1796-1800). -/
def genPaliDeclaration (nimi : String) (params : List (String × String))
    (retval : Option String) (st : GenSt) : GenSt :=
  let st := { st with scope := st.scope.declareFunction nimi params retval }
  emit st ("extrn " ++ nimi)

mutual

/-- `Generator::generate_node` (main.rs lines 1858-1886): returns `true`
for the two early-return statements; the bodies of `generate_tenpo`
(lines 1770-1794), `generate_pali` (lines 1802-1826) and
`generate_parenthesis` (lines 1843-1856) are inlined in their arms. -/
def genNode (fuel : Nat) (node : Node) (st : GenSt) :
    Except String (Bool × GenSt) :=
  match fuel with
  | 0 => .error "fuel"
  | fuel + 1 =>
    match node with
    | .otawa e =>
      match genOtawa fuel e st with
      | .error msg => .error msg
      | .ok st => .ok (true, st)
    | .oWeka expr =>
      match genOWeka fuel expr st with
      | .error msg => .error msg
      | .ok st => .ok (true, st)
    | .expression e =>
      match genExpr fuel e st with
      | .error msg => .error msg
      | .ok st => .ok (false, st)
    | .oSin varType name expr =>
      match genOSin fuel varType name expr st with
      | .error msg => .error msg
      | .ok st => .ok (false, st)
    | .liKamaSama nimi e =>
      match genLiKamaSama fuel nimi e st with
      | .error msg => .error msg
      | .ok st => .ok (false, st)
    | .paliDeclaration nimi params retval =>
      .ok (false, genPaliDeclaration nimi params retval st)
    | .oStmt oe =>
      -- main.rs lines 1874-1881
      match genO fuel oe st with
      | .error msg => .error msg
      | .ok st =>
        match st.scope.getFunction oe.nimi with
        | .error msg => .error msg
        | .ok func =>
          match func.returnType with
          | none => .ok (false, st)
          | some rt =>
            match st.scope.getType rt with
            | none => .error "panic: unwrap on None"
            | some td =>
              match Generator.popReg "rax" td.size st with
              | .error msg => .error msg
              | .ok st => .ok (false, st)
    | .tenpo e nodes =>
      -- generate_tenpo, main.rs lines 1770-1794
      let st := { st with scope := { st.scope with labelCounter := st.scope.labelCounter + 1 } }
      let labelIndex := st.scope.labelCounter
      let st := emit st "  ; tenpo .. la"
      let st := newScope st
      match genExpr fuel e st with
      | .error msg => .error msg
      | .ok st =>
        match exprTypeSize fuel st.scope e with
        | .error msg => .error msg
        | .ok size =>
          match Generator.popReg "rax" size st with
          | .error msg => .error msg
          | .ok st =>
            let st := emits st
              ["    cmp rax, 0", "    je .endif_" ++ Nat.repr labelIndex]
            match genNodesBreak fuel nodes st with
            | .error msg => .error msg
            | .ok st =>
              match currentEnvNamesLen st with
              | .error msg => .error msg
              | .ok len =>
                let st := emit st ("    add rsp, " ++ Nat.repr (len * 8))
                let st := endScope st
                .ok (false, emit st ("  .endif_" ++ Nat.repr labelIndex ++ ":"))
    | .pali nimi params nodes retval =>
      -- generate_pali, main.rs lines 1802-1826
      let st := { st with scope := st.scope.addFunction nimi params retval }
      let st := emits st ["public " ++ nimi, nimi ++ ":"]
      let st := newScope st
      match Generator.pushReg "rbp" 8 st with
      | .error msg => .error msg
      | .ok st =>
        let st := emit st "    mov rbp, rsp"
        match genParams params 0 st with
        | .error msg => .error msg
        | .ok st =>
          match genNodesBreak fuel nodes st with
          | .error msg => .error msg
          | .ok st => .ok (false, endScope st)
    | .parenthesis nodes =>
      -- generate_parenthesis, main.rs lines 1843-1856
      let st := emit st ""
      let st := newScope st
      match genNodesNoBreak fuel nodes st with
      | .error msg => .error msg
      | .ok st =>
        match currentEnvNamesLen st with
        | .error msg => .error msg
        | .ok len =>
          let st := emit st ("    add rsp, " ++ Nat.repr (len * 8))
          .ok (false, endScope st)
    | _ => .ok (false, st)
termination_by structural fuel

/-- The statement loops with early exit (`for node .. if generate_node ..
break`) of `generate`, `generate_pali` and `generate_tenpo` (main.rs lines
1894-1898, 1819-1823, 1781-1785). -/
def genNodesBreak (fuel : Nat) (nodes : List Node) (st : GenSt) :
    Except String GenSt :=
  match fuel with
  | 0 => .error "fuel"
  | fuel + 1 =>
    match nodes with
    | [] => .ok st
    | n :: rest =>
      match genNode fuel n st with
      | .error msg => .error msg
      | .ok (b, st) => if b then .ok st else genNodesBreak fuel rest st
termination_by structural fuel

/-- The statement loop of `generate_parenthesis` (main.rs lines 1847-1849),
which ignores the early-return flag. -/
def genNodesNoBreak (fuel : Nat) (nodes : List Node) (st : GenSt) :
    Except String GenSt :=
  match fuel with
  | 0 => .error "fuel"
  | fuel + 1 =>
    match nodes with
    | [] => .ok st
    | n :: rest =>
      match genNode fuel n st with
      | .error msg => .error msg
      | .ok (_, st) => genNodesNoBreak fuel rest st
termination_by structural fuel

end

/-- `Generator::generate` (main.rs lines 1892-1899), with
`generate_prelude` (lines 1888-1890) inlined. -/
def generate (fuel : Nat) (nodes : List Node) (st : GenSt) :
    Except String GenSt :=
  genNodesBreak fuel nodes (emit st "format ELF64")

/-- The initial Scope built in `main` (main.rs lines 1966-1983): the type
table is seeded with nanpa (8 bytes) and one empty outermost Environment is
pushed. -/
def initialScope : Scope :=
  { functions := [], types := [("nanpa", { size := 8, name := "nanpa" })],
    envs := [{ names := [], stackPointer := 0, tabDepth := 0 }],
    labelCounter := 0 }

def initialGenSt : GenSt := { scope := initialScope, asm := [], out := [] }

/-! Spec-side definitions and concrete example inputs used by the claim
theorems below. -/

/-- Concrete lexer input containing a string literal: the four characters
of the source text with a quoted "hi". -/
def c5buf : List Char := "\"hi\"".toList

/-- Modelled from the claim (spec section 4.4, Variable access): the
displacement is claimed to be `start_offset`, the sum of `stack_pointer`
over every Environment strictly between the Environment containing the
variable and the current (innermost) one, plus the variable's `stack_pos`,
minus `base_offset`, the sum of `stack_pointer` over all Environments
except the innermost.  Compare with `Scope.getVariable` above. -/
def specGetVariableOffset (sc : Scope) (name : String) : Option Int :=
  match findInnermost name sc.envs with
  | none => none
  | some (k, v) =>
    let between := (sc.envs.drop (k + 1)).dropLast
    let startOffset : Nat := (between.map Environment.stackPointer).sum + v.stackPos
    let baseOffset : Nat := ((sc.envs.dropLast).map Environment.stackPointer).sum
    some ((startOffset : Int) - (baseOffset : Int))

/-- A Scope as the generator reaches it while emitting the predicate of a
`tenpo pi x la ...` inside a one-parameter function, after a top-level
`o sin e nanpa x`: the outermost Environment holds the global `x` (with
`stack_pos` 0 and, because declarations do not touch `stack_pointer`,
`stack_pointer` 0), the function's Environment has `stack_pointer` 16
(saved rbp push + one bound parameter), and the conditional's fresh
Environment is empty. -/
def c1scope : Scope :=
  { functions := [],
    types := [("nanpa", { size := 8, name := "nanpa" })],
    envs := [{ names := [("x", { typeName := "nanpa", stackPos := 0 })],
               stackPointer := 0, tabDepth := 0 },
             { names := [], stackPointer := 16, tabDepth := 0 },
             { names := [], stackPointer := 0, tabDepth := 0 }],
    labelCounter := 0 }

/-- The compile-time stack pointer: the sum of `stack_pointer` over all
live Environments. -/
def sumStackPointers (sc : Scope) : Nat :=
  (sc.envs.map Environment.stackPointer).sum

/-- Net effect of one emitted instruction line on rsp, in bytes (positive =
rsp grows = stack released).  Every push/pop the generator emits moves rsp
by 8 (all operands are 8 bytes wide); `add rsp, N` / `sub rsp, N` move it
by N. -/
def rspLineDelta (l : String) : Int :=
  if ("    push".data).isPrefixOf l.data then -8
  else if ("    pop".data).isPrefixOf l.data then 8
  else if ("    add rsp, ".data).isPrefixOf l.data then
    ((digitsVal (l.data.drop 13)).getD 0 : Int)
  else if ("    sub rsp, ".data).isPrefixOf l.data then
    -(((digitsVal (l.data.drop 13)).getD 0 : Int))
  else 0

/-- Number of bytes by which a sequence of emitted lines has decremented
rsp. -/
def rspDecrease (ls : List String) : Int := -((ls.map rspLineDelta).sum)

/-- The generator state just after the prologue of a parameterless
function `f` compiled from the initial scope: `generate_pali` pushed a
fresh Environment and then `push_reg("rbp", 8)` made its `stack_pointer` 8
(the C2 theorem below also re-derives this scope from `newScope` and
`Generator.pushReg`).  The assembly sink is restarted empty so the emitted
lines of the next statement can be observed alone. -/
def c2st0 : GenSt :=
  { scope := { functions := [],
               types := [("nanpa", { size := 8, name := "nanpa" })],
               envs := [{ names := [], stackPointer := 0, tabDepth := 0 },
                        { names := [], stackPointer := 8, tabDepth := 0 }],
               labelCounter := 0 },
    asm := [], out := [] }

/-- Result of generating `( o sin e nanpa x )` from `c2st0`. -/
def c2st1 : GenSt :=
  { scope := { functions := [],
               types := [("nanpa", { size := 8, name := "nanpa" })],
               envs := [{ names := [], stackPointer := 0, tabDepth := 0 },
                        { names := [], stackPointer := 8, tabDepth := 0 }],
               labelCounter := 0 },
    asm := ["", "  ; new scope", "", "    ; new nanpa x", "    add rsp, 8",
            "  ; end of scope", ""],
    out := ["    sub rsp, 8"] }

/-- Modelled from the claim (spec section 3, Invariants): the sum of the
sizes of the variables recorded before `target` in the same Environment
(`none` when `target` is not recorded or a size is unknown). -/
def sizesOfPriorVariables (sc : Scope) (target : String) :
    List (String × Variable) → Option Nat
  | [] => none
  | (k, v) :: rest =>
    if k = target then some 0
    else
      match sc.getType v.typeName, sizesOfPriorVariables sc target rest with
      | some td, some s => some (td.size + s)
      | _, _ => none

/-- Result of generating the two declarations `o sin e nanpa x` and
`o sin e nanpa y` from the initial state. -/
def c3st : GenSt :=
  { scope := { functions := [],
               types := [("nanpa", { size := 8, name := "nanpa" })],
               envs := [{ names := [("x", { typeName := "nanpa", stackPos := 0 }),
                                    ("y", { typeName := "nanpa", stackPos := 0 })],
                          stackPointer := 0, tabDepth := 0 }],
               labelCounter := 0 },
    asm := ["", "    ; new nanpa x", "", "    ; new nanpa y"],
    out := ["    sub rsp, 8", "    sub rsp, 8"] }

/-- Result of generating the single declaration `o sin e nanpa x` from the
initial state. -/
def c4st : GenSt :=
  { scope := { functions := [],
               types := [("nanpa", { size := 8, name := "nanpa" })],
               envs := [{ names := [("x", { typeName := "nanpa", stackPos := 0 })],
                          stackPointer := 0, tabDepth := 0 }],
               labelCounter := 0 },
    asm := ["", "    ; new nanpa x"],
    out := ["    sub rsp, 8"] }

/-- Token sequence of `pali f li pali e ni: o weka  x li kama sama wan
o pini`: a function body whose first statement is a return and whose last
statement is an assignment. -/
def c7toks : List Token :=
  [.pali, .name "f", .liPaliENi, .oWeka, .name "x", .liKamaSama, .number "1",
   .oPini]

/-- The function statement the parser produces for `c7toks`. -/
def c7paliSt : PaliStatement :=
  { nimi := "f", params := [],
    nodes := [Node.oWeka none,
              Node.liKamaSama "x" (Expression.unary (UnaryExpression.nanpa 1))],
    retval := none }

/-- Modelled from the claim: the i-th argument register of the sequence
rdi, rsi, rdx, rcx, r8, r9, with positions six and beyond also r9. -/
def specArgRegister : Nat → String
  | 0 => "rdi"
  | 1 => "rsi"
  | 2 => "rdx"
  | 3 => "rcx"
  | 4 => "r8"
  | 5 => "r9"
  | _ => "r9"

/-- Modelled from the claim (spec section 4.4, Call expression): the
argument emission discipline.  `SpecArgsEmission params i st st'` holds
when, starting from `st`, the arguments `params` (whose first element has
source position `i`) are emitted in reverse source order — all later
arguments first — each argument expression immediately followed by a pop
of its value (with its type's size) into the register for its own source
position. -/
inductive SpecArgsEmission : List Expression → Nat → GenSt → GenSt → Prop where
  | nil (i : Nat) (st : GenSt) : SpecArgsEmission [] i st st
  | cons (p : Expression) (rest : List Expression) (i : Nat)
      (st stRest stExpr stPop : GenSt) (fuel size : Nat) :
      SpecArgsEmission rest (i + 1) st stRest →
      genExpr fuel p stRest = .ok stExpr →
      exprTypeSize fuel stExpr.scope p = .ok size →
      Generator.popReg (specArgRegister i) size stExpr = .ok stPop →
      SpecArgsEmission (p :: rest) i st stPop

/-- A generator state holding one two-parameter function `add` returning
nanpa. -/
def c9st0 : GenSt :=
  { scope := { functions := [("add", { returnType := some "nanpa",
                                       parameterTypes := ["nanpa", "nanpa"] })],
               types := [("nanpa", { size := 8, name := "nanpa" })],
               envs := [{ names := [], stackPointer := 0, tabDepth := 0 }],
               labelCounter := 0 },
    asm := [], out := [] }

/-- The call expression `o add e tu e luka a` (arguments 2 and 5). -/
def c9oe : OExpression :=
  .mk "add" [.unary (.nanpa 2), .unary (.nanpa 5)]

/-- Result of generating `c9oe` from `c9st0`: the second argument is
emitted first and popped into rsi, then the first into rdi. -/
def c9result : GenSt :=
  { scope := { functions := [("add", { returnType := some "nanpa",
                                       parameterTypes := ["nanpa", "nanpa"] })],
               types := [("nanpa", { size := 8, name := "nanpa" })],
               envs := [{ names := [], stackPointer := 8, tabDepth := 0 }],
               labelCounter := 0 },
    asm := ["", "    ; o add", "    mov r8, 5", "    push r8", "    pop qword rsi",
            "    mov r8, 2", "    push r8", "    pop qword rdi", "    call add",
            "    push qword rax"],
    out := [] }

/-- The two statement kinds for which `generate_node` returns `true`
(main.rs lines 1860-1863 and 1870-1873): return-from-program and
return-from-function. -/
def Node.isReturnNode : Node → Bool
  | .otawa _ => true
  | .oWeka _ => true
  | _ => false

/-! Theorems.  Shared helper lemmas come first, then one theorem per claim
(with its witness / counterexample where required). -/

theorem expectW_any (ws : List Word) (cur : Nat) (p : Word → Bool) :
    expectW ws cur p = (ws[cur]?).any p := by
  unfold expectW
  cases ws[cur]? <;> rfl

theorem lexStep_c5 (b : Bool) (ln : Nat) (ws : List Word) :
    lexStep c5buf { pos := 0, lineStart := b, line := ln, words := ws } =
      .ok { pos := 0, lineStart := false, line := ln,
            words := ws ++ [Word.stringLiteral ""] } := by
  cases b <;> rfl

theorem lexRun_c5 (fuel : Nat) :
    ∀ (b : Bool) (ln : Nat) (ws : List Word), ∃ b',
      lexRun c5buf fuel { pos := 0, lineStart := b, line := ln, words := ws } =
        .ok { pos := 0, lineStart := b', line := ln,
              words := ws ++ List.replicate fuel (Word.stringLiteral "") } := by
  induction fuel with
  | zero => intro b ln ws; exact ⟨b, by simp [lexRun]⟩
  | succ fuel ih =>
    intro b ln ws
    obtain ⟨b', h⟩ := ih false ln (ws ++ [Word.stringLiteral ""])
    refine ⟨b', ?_⟩
    have hlt : ({ pos := 0, lineStart := b, line := ln, words := ws } : LexSt).pos <
        c5buf.length := by
      show (0 : Nat) < c5buf.length
      decide
    rw [lexRun, if_pos hlt, lexStep_c5]
    show lexRun c5buf fuel
        { pos := 0, lineStart := false, line := ln,
          words := ws ++ [Word.stringLiteral ""] } = _
    rw [h]
    simp [List.replicate_succ]

/-- C5: the claim says that on reaching a `"` the lexer emits one
string-literal Word with the characters up to the next `"` and then
continues with the rest of the input.  On the input `"hi"` the code
instead never advances past the opening quote: however many loop
iterations are run, the cursor stays at position 0 and the output so far
is that many copies of an empty string-literal Word, so the lexer neither
produces the literal `hi` nor terminates. -/
theorem c5_string_literal_loop (fuel : Nat) :
    ∃ st', lexRun c5buf fuel lexInit = .ok st' ∧ st'.pos = 0 ∧
      st'.words = List.replicate fuel (Word.stringLiteral "") := by
  obtain ⟨b', h⟩ := lexRun_c5 fuel true 0 []
  exact ⟨_, h, rfl, by simp⟩

theorem nanpasLoop_spec (l : List Word) :
    ∀ acc : Nat,
      nanpasLoop l acc =
        (acc + ((l.takeWhile Word.isUnitNumeral).map
                  (fun w => (numeralWeight w).getD 0)).sum,
         (l.takeWhile Word.isUnitNumeral).length) := by
  induction l with
  | nil => intro acc; simp [nanpasLoop]
  | cons w rest ih =>
    intro acc
    cases hw : numeralWeight w with
    | none =>
      have hnum : Word.isUnitNumeral w = false := by
        simp [Word.isUnitNumeral, hw]
      simp [nanpasLoop, hw, List.takeWhile_cons, hnum]
    | some k =>
      have hnum : Word.isUnitNumeral w = true := by
        simp [Word.isUnitNumeral, hw]
      simp only [nanpasLoop, hw, ih (acc + k), List.takeWhile_cons, hnum,
        List.map_cons, List.sum_cons, List.length_cons, if_true]
      simp [Nat.add_assoc]

/-- C6: folding a run of unit numerals.  For any input position, the
single call of `tokenize_nanpas` appends exactly one numeric Token, whose
string is the decimal representation of the sum of the weights
(wan = 1, tu = 2, luka = 5) of the maximal run of unit-numeral Words
starting at the cursor, and leaves the cursor just past that run. -/
theorem c6_numeral_folding (ws : List Word) (cur : Nat) (toks : List Token) :
    tokenizeNanpas ws cur toks =
      (cur + (((ws.drop cur).takeWhile Word.isUnitNumeral).length),
       toks ++ [Token.number (Nat.repr
         ((((ws.drop cur).takeWhile Word.isUnitNumeral).map
             (fun w => (numeralWeight w).getD 0)).sum))]) := by
  unfold tokenizeNanpas
  rw [nanpasLoop_spec]
  simp

/-- C8, counterexample: the Word sequence `li x` contains the prefix `li`
of the multi-word idioms `li kama sama` / `li kepeken` / `li pali e ni` /
`li pana e`, not completed by the following Word, yet the phrase assembler
raises no error: it consumes the `li`, emits no token, and returns
normally — the Word is silently skipped. -/
theorem c8_counterexample :
    tokenizeLi [Word.li, Word.name "x"] 0 [] = .ok (1, []) := by decide

/-- C8, amended: partial matches of the multi-word idioms starting with
`o` (`o sin` without `e`, `o` followed by none of tawa/name/weka/sin/pini),
with `tenpo` (`tenpo ale` without `pi`, `tenpo` followed by neither `ale`
nor `pi`), and the incomplete `li`-idioms `li kama` without `sama`,
`li pali` without `e`, `li pali e` without `ni` and `li pana` without `e`
all raise fatal errors — but a `li` whose following Word is none of
kama/kepeken/pali/pana is consumed silently, emitting no token and raising
no error. -/
theorem c8_partial_idioms :
    (∀ ws cur toks, ws[cur]? = some Word.li →
       (ws[cur + 1]?).any Word.isLiFollower = false →
       tokenizeLi ws cur toks = .ok (cur + 1, toks)) ∧
    (∀ ws cur toks, ws[cur]? = some Word.o →
       (ws[cur + 1]?).any Word.isOFollower = false →
       tokenizeO ws cur toks = .error "not a valid o statement") ∧
    (∀ ws cur toks, ws[cur]? = some Word.o →
       ws[cur + 1]? = some Word.sin →
       (ws[cur + 2]?).any (· = Word.e) = false →
       tokenizeO ws cur toks = .error "No 'e' in 'o sin' statement") ∧
    (∀ ws cur toks, ws[cur]? = some Word.li →
       ws[cur + 1]? = some Word.kama →
       (ws[cur + 2]?).any (· = Word.sama) = false →
       tokenizeLi ws cur toks = .error "no 'sama' in 'kama sama' statement") ∧
    (∀ ws cur toks, ws[cur]? = some Word.li →
       ws[cur + 1]? = some Word.pali →
       (ws[cur + 2]?).any (· = Word.e) = false →
       tokenizeLi ws cur toks = .error "no 'e' in 'li pali e ni' token") ∧
    (∀ ws cur toks, ws[cur]? = some Word.li →
       ws[cur + 1]? = some Word.pali →
       ws[cur + 2]? = some Word.e →
       (ws[cur + 3]?).any (· = Word.ni) = false →
       tokenizeLi ws cur toks = .error "no 'ni' in 'li pali e ni' token") ∧
    (∀ ws cur toks, ws[cur]? = some Word.li →
       ws[cur + 1]? = some Word.pana →
       (ws[cur + 2]?).any (· = Word.e) = false →
       tokenizeLi ws cur toks = .error "no 'e' in 'li pana e' token") ∧
    (∀ ws cur toks, ws[cur]? = some Word.tenpo →
       (ws[cur + 1]?).any (fun w => w = Word.ale || w = Word.pi) = false →
       tokenizeTenpo ws cur toks = .error "not a valid tenpo statement") ∧
    (∀ ws cur toks, ws[cur]? = some Word.tenpo →
       ws[cur + 1]? = some Word.ale →
       (ws[cur + 2]?).any (· = Word.pi) = false →
       tokenizeTenpo ws cur toks = .error "no 'pi' in 'tenpo ale pi'") := by
  refine ⟨?_, ?_, ?_, ?_, ?_, ?_, ?_, ?_, ?_⟩
  · intro ws cur toks h1 h2
    cases hw : ws[cur + 1]? with
    | none => simp [tokenizeLi, expectW_any, h1, hw]
    | some w =>
      rw [hw] at h2
      cases w <;> simp [Word.isLiFollower] at h2 <;>
        simp [tokenizeLi, expectW_any, h1, hw]
  · intro ws cur toks h1 h2
    cases hw : ws[cur + 1]? with
    | none => simp [tokenizeO, expectW_any, h1, hw]
    | some w =>
      rw [hw] at h2
      cases w <;> simp [Word.isOFollower] at h2 <;>
        simp [tokenizeO, expectW_any, h1, hw, Word.isNameW]
  · intro ws cur toks h1 h2 h3
    simp [tokenizeO, expectW_any, h1, h2, h3, Word.isNameW]
  · intro ws cur toks h1 h2 h3
    simp [tokenizeLi, expectW_any, h1, h2, h3]
  · intro ws cur toks h1 h2 h3
    simp [tokenizeLi, expectW_any, h1, h2, h3]
  · intro ws cur toks h1 h2 h3 h4
    simp [tokenizeLi, expectW_any, h1, h2, h3, h4]
  · intro ws cur toks h1 h2 h3
    simp [tokenizeLi, expectW_any, h1, h2, h3]
  · intro ws cur toks h1 h2
    cases hw : ws[cur + 1]? with
    | none => simp [tokenizeTenpo, expectW_any, h1, hw]
    | some w =>
      rw [hw] at h2
      cases w <;> simp at h2 <;> simp [tokenizeTenpo, expectW_any, h1, hw]
  · intro ws cur toks h1 h2 h3
    simp [tokenizeTenpo, expectW_any, h1, h2, h3]

/-- C8, witness: each branch of `c8_partial_idioms` applied at a concrete
Word sequence. -/
theorem c8_partial_idioms_witness :
    tokenizeLi [Word.li, Word.name "x"] 0 [] = .ok (0 + 1, []) ∧
    tokenizeO [Word.o, Word.e] 0 [] = .error "not a valid o statement" ∧
    tokenizeO [Word.o, Word.sin, Word.nanpa] 0 [] =
      .error "No 'e' in 'o sin' statement" ∧
    tokenizeLi [Word.li, Word.kama, Word.e] 0 [] =
      .error "no 'sama' in 'kama sama' statement" ∧
    tokenizeLi [Word.li, Word.pali, Word.ni] 0 [] =
      .error "no 'e' in 'li pali e ni' token" ∧
    tokenizeLi [Word.li, Word.pali, Word.e, Word.pana] 0 [] =
      .error "no 'ni' in 'li pali e ni' token" ∧
    tokenizeLi [Word.li, Word.pana, Word.ni] 0 [] =
      .error "no 'e' in 'li pana e' token" ∧
    tokenizeTenpo [Word.tenpo, Word.la] 0 [] =
      .error "not a valid tenpo statement" ∧
    tokenizeTenpo [Word.tenpo, Word.ale, Word.la] 0 [] =
      .error "no 'pi' in 'tenpo ale pi'" :=
  ⟨c8_partial_idioms.1 _ 0 [] (by decide) (by decide),
   c8_partial_idioms.2.1 _ 0 [] (by decide) (by decide),
   c8_partial_idioms.2.2.1 _ 0 [] (by decide) (by decide) (by decide),
   c8_partial_idioms.2.2.2.1 _ 0 [] (by decide) (by decide) (by decide),
   c8_partial_idioms.2.2.2.2.1 _ 0 [] (by decide) (by decide) (by decide),
   c8_partial_idioms.2.2.2.2.2.1 _ 0 [] (by decide) (by decide) (by decide)
     (by decide),
   c8_partial_idioms.2.2.2.2.2.2.1 _ 0 [] (by decide) (by decide) (by decide),
   c8_partial_idioms.2.2.2.2.2.2.2.1 _ 0 [] (by decide) (by decide),
   c8_partial_idioms.2.2.2.2.2.2.2.2 _ 0 [] (by decide) (by decide) (by decide)⟩

theorem paliFixup_append_iff (raw : List Node) :
    paliFixup raw = raw ++ [Node.oWeka none] ↔
      raw.any Node.isOWekaNode = false := by
  unfold paliFixup
  cases h : raw.any Node.isOWekaNode with
  | true =>
    simp only [if_pos rfl, h]
    constructor
    · intro heq
      have := congrArg List.length heq
      simp at this
    · intro heq
      exact absurd heq (by simp)
  | false => simp [h]

/-- C7, counterexample: for the token sequence of `pali f li pali e ni:
o weka  x li kama sama wan  o pini` the parsed body is
`[o weka, x li kama sama 1]` and the returned function body is exactly
that list: although its last statement is an assignment (not a
return-from-function), no implicit return is appended, because an earlier
statement of the body is already a return. -/
theorem c7_counterexample :
    parsePali 100 c7toks 0 = .ok ((some c7paliSt, none), 8) ∧
    parsePaliBody 99 c7toks 3 [] = .ok (c7paliSt.nodes, 8) ∧
    c7paliSt.nodes.getLast?.map Node.isOWekaNode = some false := by
  refine ⟨?_, ?_, by simp [c7paliSt, Node.isOWekaNode]⟩ <;>
    simp [parsePali, parsePaliOpts, parsePaliBody, parseStatement, parseOWeka,
      parseLiKamaSama, parseExpression, parseUnaryExpression,
      parseNanpaExpression, parseNimiExpression, parseExprLoop, expectT,
      parseIsize, digitsVal, digitVal, paliFixup, Node.isOWekaNode, c7toks,
      c7paliSt]

/-- C7, amended: whenever `parse_pali` returns a function definition with a
body, the returned body is the parsed statement list with an implicit
return-from-function appended if and only if no statement of the parsed
body is already a return-from-function statement. -/
theorem c7_implicit_return (fuel : Nat) (toks : List Token) (cur : Nat)
    (st : PaliStatement) (cur' : Nat)
    (h : parsePali fuel toks cur = .ok ((some st, none), cur')) :
    ∃ fuel' curB raw,
      parsePaliBody fuel' toks curB [] = .ok (raw, cur') ∧
      st.nodes = paliFixup raw ∧
      (st.nodes = raw ++ [Node.oWeka none] ↔
        raw.any Node.isOWekaNode = false) := by
  match fuel with
  | 0 => simp [parsePali] at h
  | fuel + 1 =>
    rw [parsePali] at h
    split at h
    · exact absurd h (by simp)
    · split at h
      · exact absurd h (by simp)
      · rename_i nimi curA hnimi
        split at h
        · exact absurd h (by simp)
        · rename_i params retval curB hopts
          split at h
          · simp at h
          · split at h
            · exact absurd h (by simp)
            · rename_i raw curC hbody
              simp only [Except.ok.injEq, Prod.mk.injEq, Option.some.injEq] at h
              obtain ⟨⟨hst, -⟩, hcur⟩ := h
              subst hcur
              refine ⟨fuel, _, raw, hbody, ?_, ?_⟩
              · rw [← hst]
              · rw [← hst]
                exact paliFixup_append_iff raw

/-- C7, witness: `c7_implicit_return` applied to the concrete parse of
`c7toks`. -/
theorem c7_implicit_return_witness :
    ∃ fuel' curB raw,
      parsePaliBody fuel' c7toks curB [] = .ok (raw, 8) ∧
      c7paliSt.nodes = paliFixup raw ∧
      (c7paliSt.nodes = raw ++ [Node.oWeka none] ↔
        raw.any Node.isOWekaNode = false) :=
  c7_implicit_return 100 c7toks 0 c7paliSt 8 (by
    simp [parsePali, parsePaliOpts, parsePaliBody, parseStatement, parseOWeka,
      parseLiKamaSama, parseExpression, parseUnaryExpression,
      parseNanpaExpression, parseNimiExpression, parseExprLoop, expectT,
      parseIsize, digitsVal, digitVal, paliFixup, Node.isOWekaNode, c7toks,
      c7paliSt])

theorem foldl_add_stackPointer (l : List Environment) : ∀ a : Nat,
    l.foldl (fun acc env => acc + env.stackPointer) a =
      a + (l.map Environment.stackPointer).sum := by
  induction l with
  | nil => intro a; simp
  | cons e rest ih => intro a; simp [ih (a + e.stackPointer), Nat.add_assoc]

theorem findInnermost_none_lookup (name : String) :
    ∀ (envs : List Environment), findInnermost name envs = none →
      ∀ (j : Nat) (envj : Environment), envs[j]? = some envj →
        envj.names.lookup name = none := by
  intro envs
  induction envs with
  | nil => intro _ j envj hj; simp at hj
  | cons env rest ih =>
    intro h j envj hj
    cases hf : findInnermost name rest with
    | some kv =>
      obtain ⟨k, v⟩ := kv
      rw [findInnermost, hf] at h
      simp at h
    | none =>
      cases hl : env.names.lookup name with
      | some v => rw [findInnermost, hf, hl] at h; simp at h
      | none =>
        cases j with
        | zero =>
          simp only [List.getElem?_cons_zero, Option.some.injEq] at hj
          rw [← hj]
          exact hl
        | succ j' => exact ih hf j' envj (by simpa using hj)

theorem findInnermost_some_spec (name : String) :
    ∀ (envs : List Environment) (k : Nat) (v : Variable),
      findInnermost name envs = some (k, v) →
      ∃ env, envs[k]? = some env ∧ env.names.lookup name = some v ∧
        ∀ (j : Nat) (envj : Environment), k < j → envs[j]? = some envj →
          envj.names.lookup name = none := by
  intro envs
  induction envs with
  | nil => intro k v h; simp [findInnermost] at h
  | cons env rest ih =>
    intro k v h
    cases hf : findInnermost name rest with
    | some kv =>
      obtain ⟨k', v'⟩ := kv
      rw [findInnermost, hf] at h
      simp only [Option.some.injEq, Prod.mk.injEq] at h
      obtain ⟨hk, hv⟩ := h
      subst hk
      subst hv
      obtain ⟨env', he, hl, hrest⟩ := ih k' v' hf
      refine ⟨env', by simpa using he, hl, ?_⟩
      intro j envj hkj hj
      cases j with
      | zero => omega
      | succ j' => exact hrest j' envj (by omega) (by simpa using hj)
    | none =>
      cases hl : env.names.lookup name with
      | some v0 =>
        rw [findInnermost, hf, hl] at h
        simp only [Option.some.injEq, Prod.mk.injEq] at h
        obtain ⟨hk, hv⟩ := h
        subst hk
        subst hv
        refine ⟨env, by simp, hl, ?_⟩
        intro j envj hkj hj
        cases j with
        | zero => omega
        | succ j' =>
          exact findInnermost_none_lookup name rest hf j' envj (by simpa using hj)
      | none => rw [findInnermost, hf, hl] at h; simp at h

/-- C1, counterexample: on `c1scope` (a scope shape the generator reaches;
see its doc comment) the lookup of `x` returns displacement -16, while the
formula of the claim — stack pointers of the Environments strictly between
the containing Environment and the innermost one, plus `stack_pos`, minus
the stack pointers of all Environments but the innermost — gives 0. -/
theorem c1_counterexample :
    Scope.getVariable c1scope "x" =
      .ok ({ typeName := "nanpa", stackPos := 0 }, -16) ∧
    specGetVariableOffset c1scope "x" = some 0 ∧
    ¬ ((-16 : Int) = 0) := by decide

/-- C1, amended: the displacement returned by `Scope::get_variable` is
`start_offset` = the sum of `stack_pointer` over every Environment
strictly preceding (outer than) the Environment that the lookup resolves
to (the innermost one containing the name), plus the variable's
`stack_pos`, minus `base_offset` = the sum of `stack_pointer` over all
Environments except the innermost one. -/
theorem c1_offset_formula (sc : Scope) (name : String) (v : Variable)
    (off : Int) (h : sc.getVariable name = .ok (v, off)) :
    ∃ (k : Nat) (env : Environment), sc.envs[k]? = some env ∧
      env.names.lookup name = some v ∧
      (∀ (j : Nat) (envj : Environment), k < j → sc.envs[j]? = some envj →
        envj.names.lookup name = none) ∧
      off = ((((sc.envs.take k).map Environment.stackPointer).sum
                + v.stackPos : Nat) : Int)
            - (((sc.envs.dropLast).map Environment.stackPointer).sum : Int) := by
  unfold Scope.getVariable at h
  cases hf : findInnermost name sc.envs with
  | none =>
    rw [hf] at h
    split at h
    · split at h <;> simp at h
    · simp_all
  | some kv =>
    obtain ⟨k, v0⟩ := kv
    rw [hf] at h
    simp only [Except.ok.injEq, Prod.mk.injEq] at h
    obtain ⟨hv, hoff⟩ := h
    subst hv
    obtain ⟨env, he, hl, hrest⟩ := findInnermost_some_spec name sc.envs k v0 hf
    refine ⟨k, env, he, hl, hrest, ?_⟩
    rw [← hoff, foldl_add_stackPointer, foldl_add_stackPointer,
      List.dropLast_eq_take]
    push_cast
    ring

/-- C1, witness: `c1_offset_formula` applied to the lookup of `x` in
`c1scope`. -/
theorem c1_offset_formula_witness :
    ∃ (k : Nat) (env : Environment), c1scope.envs[k]? = some env ∧
      env.names.lookup "x" = some { typeName := "nanpa", stackPos := 0 } ∧
      (∀ (j : Nat) (envj : Environment), k < j → c1scope.envs[j]? = some envj →
        envj.names.lookup "x" = none) ∧
      (-16 : Int) = ((((c1scope.envs.take k).map Environment.stackPointer).sum
                        + 0 : Nat) : Int)
            - (((c1scope.envs.dropLast).map Environment.stackPointer).sum : Int) :=
  c1_offset_formula c1scope "x" { typeName := "nanpa", stackPos := 0 } (-16)
    (by decide)

/-- C2: the stack-accounting invariant fails at a statement boundary.  The
first conjunct re-derives `c2st0`'s scope as the state right after a
parameterless function prologue (`new_scope` then `push_reg("rbp", 8)`).
Generating the block statement `( o sin e nanpa x )` from there succeeds,
after which the compile-time stack pointer (sum of Environment
`stack_pointer`s) is still 8, but the emitted instructions since the
prologue (`push rbp; mov rbp, rsp` followed by the new lines, which
contain `add rsp, 8` and no allocation — the declaration's `sub rsp` went
to the compiler's stdout) have decremented rsp by 0 bytes in total. -/
theorem c2_stack_accounting_broken :
    Generator.pushReg "rbp" 8 (newScope initialGenSt) =
      .ok { scope := c2st0.scope,
            asm := ["  ; new scope", "    push qword rbp"], out := [] } ∧
    genNode 100 (Node.parenthesis [Node.oSin "nanpa" "x" none]) c2st0 =
      .ok (false, c2st1) ∧
    sumStackPointers c2st1.scope = 8 ∧
    rspDecrease ("    push qword rbp" :: "    mov rbp, rsp" :: c2st1.asm) = 0 ∧
    ¬ ((sumStackPointers c2st1.scope : Int) =
       rspDecrease ("    push qword rbp" :: "    mov rbp, rsp" :: c2st1.asm)) := by
  refine ⟨by decide, by decide, by decide, by decide, by decide⟩

/-- C3: `stack_pos` does not equal the sum of the sizes of the variables
recorded earlier in the same Environment.  After the two declarations
`o sin e nanpa x` and `o sin e nanpa y`, the second variable `y` is
recorded with `stack_pos` 0 (the declaration path never advances
`stack_pointer`), while the sum of the sizes of the variables recorded
before it (just `x`, of size 8) is 8 — the two variables share a slot. -/
theorem c3_stack_pos_not_cumulative :
    genNodesBreak 100 [Node.oSin "nanpa" "x" none, Node.oSin "nanpa" "y" none]
      initialGenSt = .ok c3st ∧
    (c3st.scope.envs.getLast?.map (fun env => env.names.lookup "y")) =
      some (some { typeName := "nanpa", stackPos := 0 }) ∧
    (c3st.scope.envs.getLast?.map (fun env =>
        sizesOfPriorVariables c3st.scope "y" env.names)) = some (some 8) ∧
    ¬ ((0 : Nat) = 8) := by
  refine ⟨by decide, by decide, by decide, by decide⟩

/-- C4: generating the declaration `o sin e nanpa x` appends no `sub rsp`
instruction to the assembly output (only a blank line and a comment); the
`sub rsp, 8` text is printed to the compiler's own stdout instead.  The
recorded Variable does get `stack_pos` = the Environment's running
`stack_pointer` before the declaration (0 here). -/
theorem c4_sub_rsp_to_stdout :
    genNode 100 (Node.oSin "nanpa" "x" none) initialGenSt =
      .ok (false, c4st) ∧
    c4st.asm = ["", "    ; new nanpa x"] ∧
    c4st.asm.any (fun l => ("    sub rsp".data).isPrefixOf l.data) = false ∧
    c4st.out = ["    sub rsp, 8"] ∧
    (c4st.scope.envs.getLast?.map (fun env => env.names.lookup "x")) =
      some (some { typeName := "nanpa", stackPos := 0 }) := by
  refine ⟨by decide, by decide, by decide, by decide, by decide⟩

theorem emit_scope (st : GenSt) (l : String) : (emit st l).scope = st.scope :=
  rfl

theorem emits_scope (st : GenSt) (ls : List String) :
    (emits st ls).scope = st.scope := rfl

theorem getArgumentRegister_eq_spec (i : Nat) :
    Generator.getArgumentRegister i = specArgRegister i := by
  match i with
  | 0 | 1 | 2 | 3 | 4 | 5 => rfl
  | n + 6 => rfl

theorem genOArgs_spec :
    ∀ (ps : List Expression) (fuel i : Nat) (st st' : GenSt),
      genOArgs fuel ps i st = .ok st' → SpecArgsEmission ps i st st' := by
  intro ps
  induction ps with
  | nil =>
    intro fuel i st st' h
    match fuel with
    | 0 => simp [genOArgs] at h
    | fuel + 1 =>
      simp only [genOArgs, Except.ok.injEq] at h
      rw [← h]
      exact .nil i st
  | cons p rest ih =>
    intro fuel i st st' h
    match fuel with
    | 0 => simp [genOArgs] at h
    | fuel + 1 =>
      rw [genOArgs] at h
      split at h
      · exact absurd h (by simp)
      · rename_i stR hR
        split at h
        · exact absurd h (by simp)
        · rename_i stE hE
          split at h
          · exact absurd h (by simp)
          · rename_i size hS
            rw [getArgumentRegister_eq_spec] at h
            exact .cons p rest i st stR stE st' fuel size
              (ih fuel (i + 1) st stR hR) hE hS h

/-- C9: when a call expression is generated, the arguments are emitted in
reverse source order, each argument expression immediately followed by a
pop of its value into the register of its source position (rdi, rsi, rdx,
rcx, r8, r9, then r9 again from position six on); then the `call` line is
emitted; and `rax` is pushed with the return type's size exactly when the
callee has a declared return type. -/
theorem c9_call_emission (fuel : Nat) (oe : OExpression) (st st' : GenSt)
    (h : genO fuel oe st = .ok st') :
    ∃ func stArgs,
      st.scope.getFunction oe.nimi = .ok func ∧
      SpecArgsEmission oe.params 0 (emits st ["", "    ; o " ++ oe.nimi]) stArgs ∧
      ((func.returnType = none ∧
          st' = emit stArgs ("    call " ++ oe.nimi)) ∨
       (∃ rt td, func.returnType = some rt ∧
          stArgs.scope.getType rt = some td ∧
          Generator.pushReg "rax" td.size
            (emit stArgs ("    call " ++ oe.nimi)) = .ok st')) := by
  match fuel with
  | 0 => simp [genO] at h
  | fuel + 1 =>
    obtain ⟨name, params⟩ := oe
    simp only [OExpression.nimi, OExpression.params]
    simp only [genO, emit_scope, emits_scope] at h
    cases hfunc : st.scope.getFunction name with
    | error m => simp [hfunc] at h
    | ok func =>
      simp only [hfunc] at h
      cases hT : exprTypeNames fuel st.scope params with
      | error m => simp [hT] at h
      | ok argTypes =>
        simp only [hT] at h
        by_cases hne : argTypes = func.parameterTypes
        · simp only [hne, ne_eq, not_true_eq_false, if_false, ite_false] at h
          cases hA : genOArgs fuel params 0
              (emits st ["", "    ; o " ++ name]) with
          | error m => simp [hA] at h
          | ok stA =>
            simp only [hA, emit_scope] at h
            cases hret : func.returnType with
            | none =>
              simp only [hret, Except.ok.injEq] at h
              exact ⟨func, stA, rfl,
                genOArgs_spec params fuel 0 _ stA hA, Or.inl ⟨hret, h.symm⟩⟩
            | some rt =>
              simp only [hret] at h
              cases hty : stA.scope.getType rt with
              | none => simp [hty] at h
              | some td =>
                simp only [hty] at h
                exact ⟨func, stA, rfl,
                  genOArgs_spec params fuel 0 _ stA hA,
                  Or.inr ⟨rt, td, hret, hty, h⟩⟩
        · simp [hne] at h

/-- C9, witness: `c9_call_emission` applied to the two-argument call
`o add e tu e luka a`. -/
theorem c9_call_emission_witness :
    ∃ func stArgs,
      c9st0.scope.getFunction c9oe.nimi = .ok func ∧
      SpecArgsEmission c9oe.params 0
        (emits c9st0 ["", "    ; o " ++ c9oe.nimi]) stArgs ∧
      ((func.returnType = none ∧
          c9result = emit stArgs ("    call " ++ c9oe.nimi)) ∨
       (∃ rt td, func.returnType = some rt ∧
          stArgs.scope.getType rt = some td ∧
          Generator.pushReg "rax" td.size
            (emit stArgs ("    call " ++ c9oe.nimi)) = .ok c9result)) :=
  c9_call_emission 100 c9oe c9st0 c9result (by decide)

theorem genNode_return_flag (fuel : Nat) (r : Node) (st : GenSt) (b : Bool)
    (st' : GenSt) (hr : r.isReturnNode = true)
    (h : genNode fuel r st = .ok (b, st')) : b = true := by
  match fuel with
  | 0 => simp [genNode] at h
  | fuel + 1 =>
    cases r <;> simp [Node.isReturnNode] at hr
    case otawa e =>
      rw [genNode] at h
      split at h
      · exact absurd h (by simp)
      · simp only [Except.ok.injEq, Prod.mk.injEq] at h
        exact h.1.symm
    case oWeka expr =>
      rw [genNode] at h
      split at h
      · exact absurd h (by simp)
      · simp only [Except.ok.injEq, Prod.mk.injEq] at h
        exact h.1.symm

theorem genNodesBreak_stop (r : Node) (hr : r.isReturnNode = true)
    (post : List Node) :
    ∀ (pre : List Node) (fuel : Nat) (st : GenSt),
      genNodesBreak fuel (pre ++ r :: post) st =
        genNodesBreak fuel (pre ++ [r]) st := by
  intro pre
  induction pre with
  | nil =>
    intro fuel st
    match fuel with
    | 0 => simp [genNodesBreak]
    | fuel + 1 =>
      simp only [List.nil_append]
      rw [genNodesBreak, genNodesBreak]
      cases hN : genNode fuel r st with
      | error m => rfl
      | ok p =>
        obtain ⟨b, st1⟩ := p
        have hb := genNode_return_flag fuel r st b st1 hr hN
        subst hb
        rfl
  | cons n pre' ih =>
    intro fuel st
    match fuel with
    | 0 => simp [genNodesBreak]
    | fuel + 1 =>
      simp only [List.cons_append]
      rw [genNodesBreak, genNodesBreak]
      cases hN : genNode fuel n st with
      | error m => rfl
      | ok p =>
        obtain ⟨b, st1⟩ := p
        cases b
        · simpa using ih fuel st1
        · rfl

/-- C10: top-level code generation stops at the first return-from-program
or return-from-function statement: the emitted output (and final state) of
a node list with any nodes after that statement is identical to the output
with them removed, so no assembly at all is emitted for subsequent
top-level nodes (later function definitions and external declarations
included). -/
theorem c10_stop_at_first_return (fuel : Nat) (pre : List Node) (r : Node)
    (post : List Node) (st : GenSt) (hr : r.isReturnNode = true) :
    generate fuel (pre ++ r :: post) st = generate fuel (pre ++ [r]) st := by
  unfold generate
  exact genNodesBreak_stop r hr post pre fuel (emit st "format ELF64")

/-- C10, witness: a top-level `o tawa` between two external declarations;
the declaration after it contributes nothing to the output. -/
theorem c10_stop_witness :
    Node.isReturnNode
        (Node.otawa (Expression.unary (UnaryExpression.nanpa 0))) = true ∧
    generate 100
        ([Node.paliDeclaration "f" [] none] ++
          Node.otawa (Expression.unary (UnaryExpression.nanpa 0)) ::
            [Node.paliDeclaration "g" [] none]) initialGenSt =
      generate 100
        ([Node.paliDeclaration "f" [] none] ++
          [Node.otawa (Expression.unary (UnaryExpression.nanpa 0))])
        initialGenSt :=
  ⟨rfl, c10_stop_at_first_return 100 _ _ _ initialGenSt rfl⟩

end TPC
